import Mathlib

/-!
# Joypad connection registry (`input/connect/joypad_connection.c`)

A shallow embedding of the slot registry of `joypad_connection.c` together with
theorems about slot allocation, driver identification and teardown.

Conventions of the embedding

* A C pointer to opaque data (`void *`, `send_control_t`) is a natural number,
  `0` standing for `NULL`.
* A pointer to a driver interface is `Option (pad_connection_interface_t W)`:
  `none` is `NULL`, `some d` points to the interface `d`.
* The slot array `joypad_connection_t *joyconn` is `Option (List ...)`:
  `none` is the `NULL` pointer, `some a` an array holding `a.length` slots.
* Driver entry points act on an abstract driver world `W` (hardware and the
  driver-private heap).  Every call made through an interface is also appended
  to a call log, so that "no driver operation is invoked" is a statement about
  that log.
* Where the order of the stores into a slot relative to the driver calls matters
  (teardown), a stepwise version of the function lists its events in program order:
  each driver call with the content of the slot at that moment, each store with the
  content of the slot after it.
* Behaviour the C standard leaves undefined (a call through a `NULL` function
  pointer, an access outside the slot array) is an explicit `fault`.
-/

namespace JoypadConnection

/-- A C data pointer; `0` is `NULL`. -/
abbrev ptr_t := Nat

/-- The rumble channels of `enum retro_rumble_effect` (libretro.h). -/
inductive retro_rumble_effect
  | RETRO_RUMBLE_STRONG
  | RETRO_RUMBLE_WEAK
  deriving DecidableEq, Repr

/-- Undefined behaviour of the C program, made explicit. -/
inductive fault
  | null_call
  | null_deref
  | out_of_bounds
  deriving DecidableEq, Repr

/-- Modelled from the spec: the struct `pad_connection_interface_t` is declared in
`joypad_connection.h`, which is not part of the sources at hand.  The fields are the
six entry points of section 4.1; `deinit`, `packet_handler` and `set_rumble` are the
optional ones (a `NULL` function pointer is `none`).  Each entry point acts on the
driver world `W`. -/
structure pad_connection_interface_t (W : Type) where
  init : ptr_t → Nat → ptr_t → W → ptr_t × W
  deinit : Option (ptr_t → W → W)
  packet_handler : Option (ptr_t → List Nat → Nat → W → W)
  set_rumble : Option (ptr_t → retro_rumble_effect → Nat → W → W)
  get_buttons : ptr_t → W → Nat × W
  get_axis : ptr_t → Nat → W → Int × W

/-- One entry of the log of calls made through driver interfaces. -/
inductive driver_call (W : Type)
  | init (iface : pad_connection_interface_t W) (data : ptr_t) (slot : Nat) (ptr : ptr_t)
  | deinit (iface : pad_connection_interface_t W) (data : ptr_t)
  | packet_handler (iface : pad_connection_interface_t W) (data : ptr_t)
      (bytes : List Nat) (length : Nat)
  | set_rumble (iface : pad_connection_interface_t W) (data : ptr_t)
      (effect : retro_rumble_effect) (strength : Nat)
  | get_buttons (iface : pad_connection_interface_t W) (data : ptr_t)
  | get_axis (iface : pad_connection_interface_t W) (data : ptr_t) (i : Nat)

/-- Everything outside the registry: the driver world and the log of driver calls. -/
structure driver_world (W : Type) where
  world : W
  calls : List (driver_call W)

/-- The struct `joypad_connection_t`: one slot of the registry. -/
structure joypad_connection_t (W : Type) where
  connected : Bool
  iface : Option (pad_connection_interface_t W)
  data : ptr_t

/-- The slot array handed to the registry functions (`none` is `NULL`). -/
abbrev registry (W : Type) := Option (List (joypad_connection_t W))

/-- What `joypad_connection.h` and the driver files provide and this file only names:
the constant `MAX_USERS` (an `int` constant, so below `2 ^ 31`) and the three driver
interfaces referenced by the descriptor table. -/
structure joypad_env (W : Type) where
  MAX_USERS : Nat
  MAX_USERS_int : MAX_USERS < 2 ^ 31
  pad_connection_wii : pad_connection_interface_t W
  pad_connection_ps4 : pad_connection_interface_t W
  pad_connection_ps3 : pad_connection_interface_t W

variable {W : Type}

/-! ## Calls through an interface -/

/-- The call `iface->init(data, slot, ptr)`. -/
def call_init (iface : pad_connection_interface_t W) (data : ptr_t) (slot : Nat)
    (ptr : ptr_t) (dw : driver_world W) : ptr_t × driver_world W :=
  let r := iface.init data slot ptr dw.world
  (r.1, { world := r.2, calls := dw.calls ++ [driver_call.init iface data slot ptr] })

/-- The call `iface->set_rumble(data, effect, strength)`; a `NULL` entry is a fault. -/
def call_set_rumble (iface : pad_connection_interface_t W) (data : ptr_t)
    (effect : retro_rumble_effect) (strength : Nat) (dw : driver_world W) :
    Except fault (driver_world W) :=
  match iface.set_rumble with
  | none => Except.error fault.null_call
  | some f =>
    Except.ok { world := f data effect strength dw.world,
                calls := dw.calls ++ [driver_call.set_rumble iface data effect strength] }

/-- The call `iface->deinit(data)`, made only after the entry was found non-`NULL`. -/
def call_deinit (iface : pad_connection_interface_t W) (f : ptr_t → W → W) (data : ptr_t)
    (dw : driver_world W) : driver_world W :=
  { world := f data dw.world, calls := dw.calls ++ [driver_call.deinit iface data] }

/-- The call `iface->packet_handler(data, bytes, length)`, made only after the entry was
found non-`NULL`. -/
def call_packet_handler (iface : pad_connection_interface_t W)
    (f : ptr_t → List Nat → Nat → W → W) (data : ptr_t) (bytes : List Nat) (length : Nat)
    (dw : driver_world W) : driver_world W :=
  { world := f data bytes length dw.world,
    calls := dw.calls ++ [driver_call.packet_handler iface data bytes length] }

/-- The call `iface->get_buttons(data)`. -/
def call_get_buttons (iface : pad_connection_interface_t W) (data : ptr_t)
    (dw : driver_world W) : Nat × driver_world W :=
  let r := iface.get_buttons data dw.world
  (r.1, { world := r.2, calls := dw.calls ++ [driver_call.get_buttons iface data] })

/-- The call `iface->get_axis(data, i)`. -/
def call_get_axis (iface : pad_connection_interface_t W) (data : ptr_t) (i : Nat)
    (dw : driver_world W) : Int × driver_world W :=
  let r := iface.get_axis data i dw.world
  (r.1, { world := r.2, calls := dw.calls ++ [driver_call.get_axis iface data i] })

/-! ## `strstr` -/

/-- Offset of the first occurrence of `needle` in `haystack`, on character lists. -/
def strstr_chars (needle : List Char) : List Char → Option Nat
  | [] => if needle.isEmpty then some 0 else none
  | c :: cs =>
    if needle.isPrefixOf (c :: cs) then some 0
    else (strstr_chars needle cs).map (· + 1)

/-- The libc function `strstr(haystack, needle)`: `some off` is the pointer
`haystack + off` to the first occurrence, `none` is `NULL`. -/
def strstr (haystack needle : String) : Option Nat :=
  strstr_chars needle.toList haystack.toList

/-! ## `pad_connection_find_vacant_pad` -/

/-- The loop `for (i = 0; i < MAX_USERS; i++)` of `pad_connection_find_vacant_pad`,
entered at index `i` with `remaining = MAX_USERS - i` iterations to go. -/
def find_vacant_pad_loop (joyconn : List (joypad_connection_t W)) :
    Nat → Nat → Except fault Int
  | 0, _ => Except.ok (-1)
  | remaining + 1, i =>
    match joyconn[i]? with
    | none => Except.error fault.out_of_bounds
    | some conn =>
      if !conn.connected then Except.ok (i : Int)
      else find_vacant_pad_loop joyconn remaining (i + 1)

/-- The function `pad_connection_find_vacant_pad`. -/
def pad_connection_find_vacant_pad (E : joypad_env W) (joyconn : registry W) :
    Except fault Int :=
  match joyconn with
  | none => Except.ok (-1)
  | some a => find_vacant_pad_loop a E.MAX_USERS 0

/-! ## `pad_connection_init` -/

/-- A slot of freshly `calloc`ed (all-zero) memory. -/
def zeroed_slot : joypad_connection_t W :=
  { connected := false, iface := none, data := 0 }

/-- The loop of `pad_connection_init`, entered at index `i` with `remaining`
iterations to go. -/
def pad_connection_init_loop :
    Nat → Nat → List (joypad_connection_t W) → List (joypad_connection_t W)
  | 0, _, joyconn => joyconn
  | remaining + 1, i, joyconn =>
    match joyconn[i]? with
    | none => pad_connection_init_loop remaining (i + 1) joyconn
    | some conn =>
      let conn1 := { conn with connected := false }
      let conn2 := { conn1 with iface := none }
      let conn3 := { conn2 with data := 0 }
      pad_connection_init_loop remaining (i + 1) (joyconn.set i conn3)

/-- The function `pad_connection_init`; `calloc_ok` tells whether `calloc` succeeded. -/
def pad_connection_init (calloc_ok : Bool) (pads : Nat) : registry W :=
  if calloc_ok then
    some (pad_connection_init_loop pads 0 (List.replicate pads zeroed_slot))
  else none

/-! ## `pad_connection_pad_init` -/

/-- One row of the static table `pad_map` (the name is a C string). -/
structure pad_map_entry (W : Type) where
  name : String
  vid : Nat
  pid : Nat
  iface : pad_connection_interface_t W

/-- The static descriptor table `pad_map`, in declared order.  The terminating
all-zero row is the end of the list; the row disabled by the preprocessor is absent. -/
def pad_map (E : joypad_env W) : List (pad_map_entry W) :=
  [ { name := "Nintendo RVL-CNT-01", vid := 1406, pid := 816,
      iface := E.pad_connection_wii },
    { name := "Wireless Controller", vid := 1356, pid := 1476,
      iface := E.pad_connection_ps4 },
    { name := "PLAYSTATION(R)3 Controller", vid := 1356, pid := 616,
      iface := E.pad_connection_ps3 } ]

/-- The loop `for (i = 0; name && pad_map[i].name; i++)` of `pad_connection_pad_init`
over the rows still to be visited; `s` is the slot `joyconn[pad]`.  The result is the
returned value, the slot array and the driver world. -/
def pad_init_loop (name : Option String) (vid pid : Nat) (data ptr : ptr_t) (pad : Nat)
    (s : joypad_connection_t W) (joyconn : List (joypad_connection_t W))
    (dw : driver_world W) :
    List (pad_map_entry W) → Int × List (joypad_connection_t W) × driver_world W
  | [] => (-1, joyconn, dw)
  | e :: rest =>
    match name with
    | none => (-1, joyconn, dw)
    | some nm =>
      let name_match := strstr nm e.name
      if name_match.isSome || (e.vid == vid && e.pid == pid) then
        let s1 := { s with iface := some e.iface }
        let r := call_init e.iface data pad ptr dw
        let s2 := { s1 with data := r.1 }
        let s3 := { s2 with connected := true }
        ((pad : Int), joyconn.set pad s3, r.2)
      else pad_init_loop name vid pid data ptr pad s joyconn dw rest

/-- The function `pad_connection_pad_init`: the returned `int32_t`, the slot array
after the call and the driver world after the call.  The pointer `s = &joyconn[pad]` is
never `NULL` once the scan has returned an index, so the test `if (s)` always passes. -/
def pad_connection_pad_init (E : joypad_env W) (joyconn : registry W)
    (name : Option String) (vid pid : Nat) (data ptr : ptr_t) (dw : driver_world W) :
    Except fault (Int × registry W × driver_world W) :=
  match pad_connection_find_vacant_pad E joyconn with
  | Except.error f => Except.error f
  | Except.ok pad =>
    if pad != -1 then
      match joyconn with
      | none => Except.error fault.null_deref
      | some a =>
        match a[pad.toNat]? with
        | none => Except.error fault.out_of_bounds
        | some s =>
          let r := pad_init_loop name vid pid data ptr pad.toNat s a dw (pad_map E)
          Except.ok (r.1, some r.2.1, r.2.2)
    else Except.ok (-1, joyconn, dw)

/-! ## `pad_connection_pad_deinit` -/

/-- The function `pad_connection_pad_deinit` on a pointer to one slot (`none` is
`NULL`): the slot after the call and the driver world after the call. -/
def pad_connection_pad_deinit (joyconn : Option (joypad_connection_t W)) (_pad : Nat)
    (dw : driver_world W) :
    Except fault (Option (joypad_connection_t W) × driver_world W) :=
  match joyconn with
  | none => Except.ok (none, dw)
  | some s =>
    if !s.connected then Except.ok (some s, dw)
    else
      let after_iface : Except fault (driver_world W) :=
        match s.iface with
        | none => Except.ok dw
        | some iface =>
          match call_set_rumble iface s.data retro_rumble_effect.RETRO_RUMBLE_STRONG 0 dw with
          | Except.error f => Except.error f
          | Except.ok dw1 =>
            match call_set_rumble iface s.data retro_rumble_effect.RETRO_RUMBLE_WEAK 0 dw1 with
            | Except.error f => Except.error f
            | Except.ok dw2 =>
              match iface.deinit with
              | some f => Except.ok (call_deinit iface f s.data dw2)
              | none => Except.ok dw2
      match after_iface with
      | Except.error f => Except.error f
      | Except.ok dw3 =>
        let s1 := { s with iface := none }
        let s2 := { s1 with connected := false }
        Except.ok (some s2, dw3)

/-- One event in the life of a slot during a registry function: a call made through the
driver interface, recorded with the content of the slot at the moment of the call, or a
store into a field of the slot, recorded with the content of the slot after the store. -/
inductive slot_event (W : Type)
  | driver (c : driver_call W) (slot : joypad_connection_t W)
  | store (slot : joypad_connection_t W)

/-- The function `pad_connection_pad_deinit`, statement by statement, with the events
it produces in program order: the driver calls are made on the slot as it was on entry,
then come the store `joyconn->iface = NULL` and the store `joyconn->connected = false`.
The result carries the slot and the driver world after the call, and the events. -/
def pad_connection_pad_deinit_steps (joyconn : Option (joypad_connection_t W)) (_pad : Nat)
    (dw : driver_world W) :
    Except fault
      (Option (joypad_connection_t W) × driver_world W × List (slot_event W)) :=
  match joyconn with
  | none => Except.ok (none, dw, [])
  | some s =>
    if !s.connected then Except.ok (some s, dw, [])
    else
      let after_iface : Except fault (driver_world W × List (slot_event W)) :=
        match s.iface with
        | none => Except.ok (dw, [])
        | some iface =>
          match call_set_rumble iface s.data retro_rumble_effect.RETRO_RUMBLE_STRONG 0 dw with
          | Except.error f => Except.error f
          | Except.ok dw1 =>
            let ev1 : List (slot_event W) :=
              [slot_event.driver
                (driver_call.set_rumble iface s.data retro_rumble_effect.RETRO_RUMBLE_STRONG 0)
                s]
            match call_set_rumble iface s.data retro_rumble_effect.RETRO_RUMBLE_WEAK 0 dw1 with
            | Except.error f => Except.error f
            | Except.ok dw2 =>
              let ev2 : List (slot_event W) :=
                ev1 ++
                  [slot_event.driver
                    (driver_call.set_rumble iface s.data
                      retro_rumble_effect.RETRO_RUMBLE_WEAK 0) s]
              match iface.deinit with
              | some f =>
                Except.ok (call_deinit iface f s.data dw2,
                  ev2 ++ [slot_event.driver (driver_call.deinit iface s.data) s])
              | none => Except.ok (dw2, ev2)
      match after_iface with
      | Except.error f => Except.error f
      | Except.ok (dw3, ev3) =>
        let s1 := { s with iface := none }
        let s2 := { s1 with connected := false }
        Except.ok (some s2, dw3, ev3 ++ [slot_event.store s1, slot_event.store s2])

/-- The call `pad_connection_pad_deinit(&joyconn[i], i)` on a slot array, as made by
`pad_connection_destroy` and by the callers that disconnect one pad. -/
def pad_deinit_at (joyconn : List (joypad_connection_t W)) (i : Nat)
    (dw : driver_world W) :
    Except fault (List (joypad_connection_t W) × driver_world W) :=
  match joyconn[i]? with
  | none => Except.error fault.out_of_bounds
  | some s =>
    match pad_connection_pad_deinit (some s) i dw with
    | Except.error f => Except.error f
    | Except.ok (some s1, dw1) => Except.ok (joyconn.set i s1, dw1)
    | Except.ok (none, dw1) => Except.ok (joyconn, dw1)

/-! ## `pad_connection_packet`, `pad_connection_get_buttons`, `pad_connection_get_axis` -/

/-- The function `pad_connection_packet` on a pointer to one slot; `data` is the content
of the report buffer.  The slot is not written, the result is the driver world. -/
def pad_connection_packet (joyconn : Option (joypad_connection_t W)) (_pad : Nat)
    (data : List Nat) (length : Nat) (dw : driver_world W) : driver_world W :=
  match joyconn with
  | none => dw
  | some s =>
    if !s.connected then dw
    else
      match s.iface with
      | none => dw
      | some iface =>
        if s.data != 0 then
          match iface.packet_handler with
          | some f => call_packet_handler iface f s.data data length dw
          | none => dw
        else dw

/-- The function `pad_connection_get_buttons` on a pointer to one slot, which it
dereferences without a `NULL` test. -/
def pad_connection_get_buttons (joyconn : Option (joypad_connection_t W)) (_pad : Nat)
    (dw : driver_world W) : Except fault (Nat × driver_world W) :=
  match joyconn with
  | none => Except.error fault.null_deref
  | some s =>
    match s.iface with
    | none => Except.ok (0, dw)
    | some iface => Except.ok (call_get_buttons iface s.data dw)

/-- The function `pad_connection_get_axis` on a pointer to one slot; `i` is the axis
index handed to the driver, `_idx` the unused pad index. -/
def pad_connection_get_axis (joyconn : Option (joypad_connection_t W)) (_idx i : Nat)
    (dw : driver_world W) : Except fault (Int × driver_world W) :=
  match joyconn with
  | none => Except.error fault.null_deref
  | some s =>
    match s.iface with
    | none => Except.ok (0, dw)
    | some iface => Except.ok (call_get_axis iface s.data i dw)

/-! ## `pad_connection_rumble` -/

/-- The function `pad_connection_rumble` on a pointer to one slot, which it dereferences
without a `NULL` test. -/
def pad_connection_rumble (joyconn : Option (joypad_connection_t W)) (_pad : Nat)
    (effect : retro_rumble_effect) (strength : Nat) (dw : driver_world W) :
    Except fault (Bool × driver_world W) :=
  match joyconn with
  | none => Except.error fault.null_deref
  | some s =>
    if !s.connected then Except.ok (false, dw)
    else
      match s.iface with
      | none => Except.ok (false, dw)
      | some iface =>
        match iface.set_rumble with
        | none => Except.ok (false, dw)
        | some f =>
          Except.ok (true,
            { world := f s.data effect strength dw.world,
              calls := dw.calls ++ [driver_call.set_rumble iface s.data effect strength] })

/-! ## `pad_connection_destroy` -/

/-- The loop `for (i = 0; i < MAX_USERS; i ++)` of `pad_connection_destroy`, entered at
index `i` with `remaining` iterations to go.  On a `NULL` array `&joyconn[0]` is `NULL`
and any further `&joyconn[i]` is an invalid pointer. -/
def pad_connection_destroy_loop :
    Nat → Nat → registry W → driver_world W → Except fault (registry W × driver_world W)
  | 0, _, joyconn, dw => Except.ok (joyconn, dw)
  | remaining + 1, i, none, dw =>
    if i = 0 then
      match pad_connection_pad_deinit (none : Option (joypad_connection_t W)) i dw with
      | Except.error f => Except.error f
      | Except.ok (_, dw1) => pad_connection_destroy_loop remaining (i + 1) none dw1
    else Except.error fault.null_deref
  | remaining + 1, i, some a, dw =>
    match pad_deinit_at a i dw with
    | Except.error f => Except.error f
    | Except.ok (a1, dw1) => pad_connection_destroy_loop remaining (i + 1) (some a1) dw1

/-- The function `pad_connection_destroy`. -/
def pad_connection_destroy (E : joypad_env W) (joyconn : registry W)
    (dw : driver_world W) : Except fault (registry W × driver_world W) :=
  pad_connection_destroy_loop E.MAX_USERS 0 joyconn dw

/-! ## `pad_connection_has_interface` -/

/-- The function `pad_connection_has_interface`. -/
def pad_connection_has_interface (E : joypad_env W) (joyconn : registry W) (pad : Nat) :
    Except fault Bool :=
  match joyconn with
  | none => Except.ok false
  | some a =>
    if pad < E.MAX_USERS then
      match a[pad]? with
      | none => Except.error fault.out_of_bounds
      | some s => Except.ok (s.connected && s.iface.isSome)
    else Except.ok false

/-! ## Vocabulary of the specification -/

/-- Slot `i` of the array exists and is connected. -/
def slot_connected (a : List (joypad_connection_t W)) (i : Nat) : Bool :=
  match a[i]? with
  | some s => s.connected
  | none => false

/-- Slot `i` of the array exists and is not connected. -/
def slot_vacant (a : List (joypad_connection_t W)) (i : Nat) : Bool :=
  match a[i]? with
  | some s => !s.connected
  | none => false

/-- The match rule of the descriptor table in the words of the specification: the
device name contains the descriptor's name as a substring, or the id pair equals the
descriptor's id pair. -/
def descriptor_matches (nm : String) (vid pid : Nat) (e : pad_map_entry W) : Prop :=
  e.name.toList <:+: nm.toList ∨ (e.vid = vid ∧ e.pid = pid)

instance (nm : String) (vid pid : Nat) (e : pad_map_entry W) :
    Decidable (descriptor_matches nm vid pid e) := by
  unfold descriptor_matches; infer_instance

/-- The first descriptor of the table, in table order, that matches the device. -/
def first_match (E : joypad_env W) (nm : String) (vid pid : Nat) :
    Option (pad_map_entry W) :=
  (pad_map E).find? (fun e => decide (descriptor_matches nm vid pid e))

/-- The slot written by a successful `connect`: connected, bound to `iface`, holding
the instance returned by `init`. -/
def bound_slot (iface : pad_connection_interface_t W) (data : ptr_t) :
    joypad_connection_t W :=
  { connected := true, iface := some iface, data := data }

/-- The outcome of a `connect` that binds slot `p` of the array `a` to `iface`: the
index `p` is returned, slot `p` is the bound slot holding the result of the one call
`iface->init(data, p, ptr)`, the other slots are as before, and the driver world is the
one left by that call. -/
def connect_binds (a : List (joypad_connection_t W)) (p : Nat)
    (iface : pad_connection_interface_t W) (data ptr : ptr_t) (dw : driver_world W) :
    Except fault (Int × registry W × driver_world W) :=
  Except.ok ((p : Int),
    some (a.set p (bound_slot iface (call_init iface data p ptr dw).1)),
    (call_init iface data p ptr dw).2)

/-- The slot left by a teardown of the slot `s`: not connected, no driver interface,
the data pointer as it was. -/
def torn_down_slot (s : joypad_connection_t W) : joypad_connection_t W :=
  { connected := false, iface := none, data := s.data }

/-- The driver world left by the teardown calls on a driver whose `set_rumble` entry is
`f`: `set_rumble(data, STRONG, 0)`, then `set_rumble(data, WEAK, 0)`, then
`deinit(data)` when the driver has a `deinit` entry. -/
def teardown_world (iface : pad_connection_interface_t W)
    (f : ptr_t → retro_rumble_effect → Nat → W → W) (data : ptr_t)
    (dw : driver_world W) : driver_world W :=
  let dw1 : driver_world W :=
    { world := f data retro_rumble_effect.RETRO_RUMBLE_STRONG 0 dw.world
      calls := dw.calls ++
        [driver_call.set_rumble iface data retro_rumble_effect.RETRO_RUMBLE_STRONG 0] }
  let dw2 : driver_world W :=
    { world := f data retro_rumble_effect.RETRO_RUMBLE_WEAK 0 dw1.world
      calls := dw1.calls ++
        [driver_call.set_rumble iface data retro_rumble_effect.RETRO_RUMBLE_WEAK 0] }
  match iface.deinit with
  | some g => call_deinit iface g data dw2
  | none => dw2

/-- Slot `j` of the array is bound to a driver of the descriptor table. -/
def table_bound (E : joypad_env W) (a : List (joypad_connection_t W)) (j : Nat) : Prop :=
  ∃ (e : pad_map_entry W) (data : ptr_t),
    e ∈ pad_map E ∧ a[j]? = some (bound_slot e.iface data)

/-- Every driver of the descriptor table provides `set_rumble`. -/
def drivers_rumble (E : joypad_env W) : Prop :=
  ∀ e, e ∈ pad_map E → e.iface.set_rumble.isSome = true

/-- A device as reported to `connect`: name (`none` is a `NULL` name), vendor id,
product id, transport handle and the `send_control` callback. -/
structure device where
  name : Option String
  vid : Nat
  pid : Nat
  data : ptr_t
  ptr : ptr_t

/-- The device carries a name and some descriptor of the table matches it. -/
def recognized (E : joypad_env W) (d : device) : Prop :=
  ∃ nm, d.name = some nm ∧ ∃ e, first_match E nm d.vid d.pid = some e

/-- Successive `connect` calls, one per device, threading the slot array and the
driver world; the result lists the returned values in call order. -/
def connect_all (E : joypad_env W) :
    List device → registry W → driver_world W →
      Except fault (List Int × registry W × driver_world W)
  | [], joyconn, dw => Except.ok ([], joyconn, dw)
  | d :: ds, joyconn, dw =>
    match pad_connection_pad_init E joyconn d.name d.vid d.pid d.data d.ptr dw with
    | Except.error f => Except.error f
    | Except.ok (p, joyconn1, dw1) =>
      match connect_all E ds joyconn1 dw1 with
      | Except.error f => Except.error f
      | Except.ok (ps, joyconn2, dw2) => Except.ok (p :: ps, joyconn2, dw2)

/-! ## Sequences of registry operations -/

/-- One call of a public operation of the registry, as a caller makes it on the slot
array: the per-pad operations are applied to `&joyconn[i]`. -/
inductive registry_op
  | connect (d : device)
  | disconnect (i : Nat)
  | dispatch_packet (i : Nat) (bytes : List Nat) (length : Nat)
  | read_buttons (i : Nat)
  | read_axis (i : Nat) (axis : Nat)
  | set_rumble (i : Nat) (effect : retro_rumble_effect) (strength : Nat)
  | destroy_all

/-- The state after one operation: the slot array and the driver world.  Only
`connect`, `disconnect` and `destroy_all` store into the array; the other operations
hand the array back as it is. -/
def apply_op (E : joypad_env W) :
    registry_op → List (joypad_connection_t W) × driver_world W →
      Except fault (List (joypad_connection_t W) × driver_world W)
  | registry_op.connect d, (a, dw) =>
    match pad_connection_pad_init E (some a) d.name d.vid d.pid d.data d.ptr dw with
    | Except.error f => Except.error f
    | Except.ok (_, some b, dw1) => Except.ok (b, dw1)
    | Except.ok (_, none, _) => Except.error fault.null_deref
  | registry_op.disconnect i, (a, dw) => pad_deinit_at a i dw
  | registry_op.dispatch_packet i bytes length, (a, dw) =>
    match a[i]? with
    | none => Except.error fault.out_of_bounds
    | some s => Except.ok (a, pad_connection_packet (some s) i bytes length dw)
  | registry_op.read_buttons i, (a, dw) =>
    match a[i]? with
    | none => Except.error fault.out_of_bounds
    | some s =>
      match pad_connection_get_buttons (some s) i dw with
      | Except.error f => Except.error f
      | Except.ok (_, dw1) => Except.ok (a, dw1)
  | registry_op.read_axis i axis, (a, dw) =>
    match a[i]? with
    | none => Except.error fault.out_of_bounds
    | some s =>
      match pad_connection_get_axis (some s) i axis dw with
      | Except.error f => Except.error f
      | Except.ok (_, dw1) => Except.ok (a, dw1)
  | registry_op.set_rumble i effect strength, (a, dw) =>
    match a[i]? with
    | none => Except.error fault.out_of_bounds
    | some s =>
      match pad_connection_rumble (some s) i effect strength dw with
      | Except.error f => Except.error f
      | Except.ok (_, dw1) => Except.ok (a, dw1)
  | registry_op.destroy_all, (a, dw) =>
    match pad_connection_destroy E (some a) dw with
    | Except.error f => Except.error f
    | Except.ok (some b, dw1) => Except.ok (b, dw1)
    | Except.ok (none, _) => Except.error fault.null_deref

/-- The state after a sequence of operations, applied from left to right. -/
def run_ops (E : joypad_env W) :
    List registry_op → List (joypad_connection_t W) × driver_world W →
      Except fault (List (joypad_connection_t W) × driver_world W)
  | [], st => Except.ok st
  | op :: ops, st =>
    match apply_op E op st with
    | Except.error f => Except.error f
    | Except.ok st1 => run_ops E ops st1

/-- The state `st` is reached from a freshly constructed registry
(`pad_connection_init` with any number of pads, any initial driver world) by some
sequence of operations. -/
def reachable (E : joypad_env W) (st : List (joypad_connection_t W) × driver_world W) :
    Prop :=
  ∃ (pads : Nat) (dw0 : driver_world W) (a0 : List (joypad_connection_t W))
    (ops : List registry_op),
    pad_connection_init true pads = some a0 ∧ run_ops E ops (a0, dw0) = Except.ok st

/-- The slot invariant of the specification: a driver interface is present exactly when
the slot is connected. -/
def slot_invariant (s : joypad_connection_t W) : Prop :=
  s.iface.isSome = s.connected

/-- Every slot of the array satisfies the slot invariant. -/
def registry_invariant (a : List (joypad_connection_t W)) : Prop :=
  ∀ (i : Nat) (s : joypad_connection_t W), a[i]? = some s → slot_invariant s

/-- The slot left by `destroy_all`: torn down when it was connected, untouched
otherwise. -/
def teardown_if_connected (s : joypad_connection_t W) : joypad_connection_t W :=
  if s.connected then torn_down_slot s else s

/-- The teardown of the slot does not meet a missing `set_rumble` entry: when the slot
is connected and has a driver, the driver provides `set_rumble`. -/
def rumble_provided (s : joypad_connection_t W) : Prop :=
  s.connected = true → ∀ d, s.iface = some d → d.set_rumble.isSome = true

/-! ## Concrete drivers and registries used to exercise the theorems -/

/-- A driver over the world `Nat` providing every entry point; `init` returns the
instance pointer `data + slot + tag`, and each call leaves a mark in the world. -/
def sample_iface (tag : Nat) : pad_connection_interface_t Nat :=
  { init := fun data slot _ w => (data + slot + tag, w + 1)
    deinit := some (fun _ w => w + 10)
    packet_handler := some (fun _ _ length w => w + length)
    set_rumble := some (fun _ _ strength w => w + 100 + strength)
    get_buttons := fun data w => (data, w)
    get_axis := fun data i w => ((data : Int) + (i : Int), w) }

/-- An environment with four slots and three sample drivers. -/
def sample_env : joypad_env Nat :=
  { MAX_USERS := 4
    MAX_USERS_int := by decide
    pad_connection_wii := sample_iface 1
    pad_connection_ps4 := sample_iface 2
    pad_connection_ps3 := sample_iface 3 }

/-- A driver whose `init` fails: it returns the `NULL` instance. -/
def null_init_iface : pad_connection_interface_t Nat :=
  { init := fun _ _ _ w => (0, w + 1)
    deinit := some (fun _ w => w + 10)
    packet_handler := none
    set_rumble := some (fun _ _ strength w => w + 100 + strength)
    get_buttons := fun _ w => (0, w)
    get_axis := fun _ _ w => (0, w) }

/-- An environment with four slots whose PS4 driver fails to initialise. -/
def null_init_env : joypad_env Nat :=
  { MAX_USERS := 4
    MAX_USERS_int := by decide
    pad_connection_wii := sample_iface 1
    pad_connection_ps4 := null_init_iface
    pad_connection_ps3 := sample_iface 3 }

/-- A driver without a `set_rumble` entry (the function pointer is `NULL`). -/
def norumble_iface : pad_connection_interface_t Nat :=
  { init := fun data slot _ w => (data + slot + 1, w + 1)
    deinit := some (fun _ w => w + 10)
    packet_handler := none
    set_rumble := none
    get_buttons := fun data w => (data, w)
    get_axis := fun _ _ w => (0, w) }

/-- An environment with four slots whose Wii driver has no `set_rumble` entry. -/
def norumble_env : joypad_env Nat :=
  { MAX_USERS := 4
    MAX_USERS_int := by decide
    pad_connection_wii := norumble_iface
    pad_connection_ps4 := sample_iface 2
    pad_connection_ps3 := sample_iface 3 }

/-- A four-slot array whose slots are all bound. -/
def full_slots : List (joypad_connection_t Nat) :=
  [ bound_slot (sample_iface 1) 7, bound_slot (sample_iface 2) 8,
    bound_slot (sample_iface 3) 9, bound_slot (sample_iface 1) 10 ]

/-- Four devices with names unknown to the table and id pairs of the table. -/
def scenario_devices : List device :=
  [ { name := some "pad A", vid := 1356, pid := 616, data := 11, ptr := 21 },
    { name := some "pad B", vid := 1406, pid := 816, data := 12, ptr := 22 },
    { name := some "pad C", vid := 1356, pid := 1476, data := 13, ptr := 23 },
    { name := some "pad D", vid := 1356, pid := 616, data := 14, ptr := 24 } ]

/-- A fifth device, recognised by its id pair. -/
def scenario_extra : device :=
  { name := some "pad E", vid := 1356, pid := 1476, data := 15, ptr := 25 }

/-- The initial driver world of the examples: world `0`, empty call log. -/
def sample_world : driver_world Nat :=
  { world := 0, calls := [] }

/-- A four-slot array whose slots 0 and 2 are bound and whose slots 1 and 3 are empty. -/
def sample_slots : List (joypad_connection_t Nat) :=
  [ bound_slot (sample_iface 3) 7, zeroed_slot, bound_slot (sample_iface 2) 9, zeroed_slot ]

/-- A sequence of operations that uses every kind of operation. -/
def sample_ops : List registry_op :=
  [ registry_op.connect scenario_extra,
    registry_op.dispatch_packet 0 [1, 2, 3] 3,
    registry_op.read_buttons 0,
    registry_op.read_axis 1 2,
    registry_op.set_rumble 0 retro_rumble_effect.RETRO_RUMBLE_WEAK 5,
    registry_op.connect scenario_extra,
    registry_op.disconnect 0,
    registry_op.connect scenario_extra,
    registry_op.destroy_all,
    registry_op.connect scenario_extra,
    registry_op.disconnect 0 ]

/-! ## Lemmas on the vacant-slot scan -/

theorem slot_vacant_iff (a : List (joypad_connection_t W)) (i : Nat) :
    slot_vacant a i = true ↔ ∃ s, a[i]? = some s ∧ s.connected = false := by
  unfold slot_vacant
  cases h : a[i]? with
  | none => simp
  | some s => simp

theorem slot_connected_iff (a : List (joypad_connection_t W)) (i : Nat) :
    slot_connected a i = true ↔ ∃ s, a[i]? = some s ∧ s.connected = true := by
  unfold slot_connected
  cases h : a[i]? with
  | none => simp
  | some s => simp

theorem slot_vacant_not_connected (a : List (joypad_connection_t W)) (i : Nat)
    (h : slot_vacant a i = true) : slot_connected a i = false := by
  unfold slot_vacant at h
  unfold slot_connected
  cases hs : a[i]? with
  | none => rfl
  | some s => rw [hs] at h; simpa using h

/-- The scan either finds every visited slot connected and returns `-1`, or returns
the least visited index whose slot is not connected. -/
theorem find_vacant_pad_loop_cases (a : List (joypad_connection_t W)) :
    ∀ (n i : Nat), i + n ≤ a.length →
      (find_vacant_pad_loop a n i = Except.ok (-1) ∧
          ∀ j, i ≤ j → j < i + n → slot_connected a j = true) ∨
      (∃ p : Nat, find_vacant_pad_loop a n i = Except.ok (p : Int) ∧ i ≤ p ∧ p < i + n ∧
          slot_vacant a p = true ∧ ∀ j, i ≤ j → j < p → slot_connected a j = true) := by
  intro n
  induction n with
  | zero =>
    intro i _
    left
    refine ⟨rfl, ?_⟩
    intro j h1 h2
    omega
  | succ n ih =>
    intro i hlen
    have hi : i < a.length := by omega
    have hget : a[i]? = some a[i] := List.getElem?_eq_getElem hi
    cases hc : a[i].connected with
    | false =>
      right
      refine ⟨i, ?_, le_refl i, by omega, ?_, ?_⟩
      · simp [find_vacant_pad_loop, hget, hc]
      · simp [slot_vacant, hget, hc]
      · intro j h1 h2; omega
    | true =>
      have hstep : find_vacant_pad_loop a (n + 1) i = find_vacant_pad_loop a n (i + 1) := by
        simp [find_vacant_pad_loop, hget, hc]
      have hci : slot_connected a i = true := by simp [slot_connected, hget, hc]
      rcases ih (i + 1) (by omega) with ⟨h1, h2⟩ | ⟨p, h1, h2, h3, h4, h5⟩
      · left
        refine ⟨by rw [hstep]; exact h1, ?_⟩
        intro j hj1 hj2
        by_cases hji : j = i
        · rw [hji]; exact hci
        · exact h2 j (by omega) (by omega)
      · right
        refine ⟨p, by rw [hstep]; exact h1, by omega, by omega, h4, ?_⟩
        intro j hj1 hj2
        by_cases hji : j = i
        · rw [hji]; exact hci
        · exact h5 j (by omega) hj2

/-! ## Lemmas on `strstr` and the descriptor scan -/

/-- The embedded `strstr` finds an occurrence exactly when the needle is a contiguous
sublist of the haystack. -/
theorem strstr_chars_isSome (needle : List Char) :
    ∀ hay : List Char, (strstr_chars needle hay).isSome = true ↔ needle <:+: hay := by
  intro hay
  induction hay with
  | nil =>
    cases needle with
    | nil => simp [strstr_chars]
    | cons c cs => simp [strstr_chars]
  | cons c cs ih =>
    unfold strstr_chars
    by_cases hp : needle.isPrefixOf (c :: cs) = true
    · rw [if_pos hp]
      have hpre : needle <+: c :: cs := List.isPrefixOf_iff_prefix.mp hp
      simpa using hpre.isInfix
    · rw [if_neg hp]
      have hnp : ¬ needle <+: c :: cs := fun h => hp (List.isPrefixOf_iff_prefix.mpr h)
      have hmap : (Option.map (fun x => x + 1) (strstr_chars needle cs)).isSome =
          (strstr_chars needle cs).isSome := by
        cases strstr_chars needle cs <;> rfl
      rw [hmap, ih, List.infix_cons_iff]
      exact ⟨Or.inr, fun h => h.resolve_left hnp⟩

/-- The test of the scan body is the match rule of the specification. -/
theorem scan_test_eq (nm : String) (vid pid : Nat) (e : pad_map_entry W) :
    ((strstr nm e.name).isSome || (e.vid == vid && e.pid == pid)) =
      decide (descriptor_matches nm vid pid e) := by
  have h1 := strstr_chars_isSome e.name.data nm.data
  unfold descriptor_matches
  unfold strstr
  simp only [String.toList]
  by_cases hin : e.name.data <:+: nm.data
  · have := h1.mpr hin
    simp [this, hin]
  · have hn : (strstr_chars e.name.data nm.data).isSome = false := by
      cases hs : (strstr_chars e.name.data nm.data).isSome with
      | false => rfl
      | true => exact absurd (h1.mp hs) hin
    by_cases hv : e.vid = vid <;> by_cases hq : e.pid = pid <;> simp [hn, hin, hv, hq]

/-- With a `NULL` name the descriptor scan visits no row. -/
theorem pad_init_loop_null_name (vid pid : Nat) (data ptr : ptr_t) (pad : Nat)
    (s : joypad_connection_t W) (a : List (joypad_connection_t W)) (dw : driver_world W)
    (rows : List (pad_map_entry W)) :
    pad_init_loop none vid pid data ptr pad s a dw rows = (-1, a, dw) := by
  cases rows with
  | nil => rfl
  | cons e rest => rfl

/-- With a name present the descriptor scan binds the first matching row, or returns
`-1` and changes nothing when no row matches. -/
theorem pad_init_loop_find (nm : String) (vid pid : Nat) (data ptr : ptr_t) (pad : Nat)
    (s : joypad_connection_t W) (a : List (joypad_connection_t W)) (dw : driver_world W)
    (rows : List (pad_map_entry W)) :
    pad_init_loop (some nm) vid pid data ptr pad s a dw rows =
      match rows.find? (fun e => decide (descriptor_matches nm vid pid e)) with
      | some e =>
        ((pad : Int),
          a.set pad (bound_slot e.iface (call_init e.iface data pad ptr dw).1),
          (call_init e.iface data pad ptr dw).2)
      | none => (-1, a, dw) := by
  induction rows with
  | nil => rfl
  | cons e rest ih =>
    unfold pad_init_loop
    simp only [scan_test_eq, List.find?_cons]
    by_cases hm : descriptor_matches nm vid pid e
    · simp [hm, bound_slot]
    · simp [hm, ih]

/-! ## Lemmas on `pad_connection_pad_init` -/

/-- When the vacant-slot scan returns `-1`, `connect` returns `-1` and changes nothing. -/
theorem pad_init_of_no_vacant (E : joypad_env W) (joyconn : registry W)
    (name : Option String) (vid pid : Nat) (data ptr : ptr_t) (dw : driver_world W)
    (hfull : pad_connection_find_vacant_pad E joyconn = Except.ok (-1)) :
    pad_connection_pad_init E joyconn name vid pid data ptr dw =
      Except.ok (-1, joyconn, dw) := by
  unfold pad_connection_pad_init
  rw [hfull]
  simp

/-- When the vacant-slot scan returns the index `p`, `connect` returns `-1` and changes
nothing for a `NULL` name or a device without a matching row, and otherwise binds slot
`p` to the first matching row after one call of that row's `init`. -/
theorem pad_init_of_vacant (E : joypad_env W) (a : List (joypad_connection_t W)) (p : Nat)
    (name : Option String) (vid pid : Nat) (data ptr : ptr_t) (dw : driver_world W)
    (hp : pad_connection_find_vacant_pad E (some a) = Except.ok (p : Int))
    (hv : slot_vacant a p = true) :
    pad_connection_pad_init E (some a) name vid pid data ptr dw =
      match name with
      | none => Except.ok (-1, some a, dw)
      | some nm =>
        match first_match E nm vid pid with
        | some e =>
          Except.ok ((p : Int),
            some (a.set p (bound_slot e.iface (call_init e.iface data p ptr dw).1)),
            (call_init e.iface data p ptr dw).2)
        | none => Except.ok (-1, some a, dw) := by
  obtain ⟨s, hs, _⟩ := (slot_vacant_iff a p).mp hv
  have hne : ((p : Int) != -1) = true := by
    simp only [bne_iff_ne, ne_eq]
    omega
  unfold pad_connection_pad_init
  rw [hp]
  simp only [hne, if_true, Int.toNat_ofNat, hs]
  cases name with
  | none => simp [pad_init_loop_null_name]
  | some nm =>
    simp only [pad_init_loop_find, first_match]
    cases (pad_map E).find? (fun e => decide (descriptor_matches nm vid pid e)) with
    | none => rfl
    | some e => rfl

/-- A slot array of `MAX_USERS` slots with a vacant slot: the scan returns its least
vacant index. -/
theorem find_vacant_pad_of_vacant (E : joypad_env W) (a : List (joypad_connection_t W))
    (hlen : a.length = E.MAX_USERS)
    (hvac : ∃ i, i < E.MAX_USERS ∧ slot_vacant a i = true) :
    ∃ p : Nat, pad_connection_find_vacant_pad E (some a) = Except.ok (p : Int) ∧
      p < E.MAX_USERS ∧ slot_vacant a p = true ∧
      ∀ j, j < p → slot_connected a j = true := by
  obtain ⟨i, hi, hv⟩ := hvac
  rcases find_vacant_pad_loop_cases a E.MAX_USERS 0 (by omega) with
    ⟨_, h2⟩ | ⟨p, h1, _, h3, h4, h5⟩
  · have hc := h2 i (by omega) (by omega)
    rw [slot_vacant_not_connected a i hv] at hc
    exact absurd hc (by decide)
  · exact ⟨p, h1, by omega, h4, fun j hj => h5 j (by omega) hj⟩

/-- A slot array of `MAX_USERS` slots that are all connected: the scan returns `-1`. -/
theorem find_vacant_pad_of_full (E : joypad_env W) (a : List (joypad_connection_t W))
    (hlen : a.length = E.MAX_USERS)
    (hfull : ∀ i, i < E.MAX_USERS → slot_connected a i = true) :
    pad_connection_find_vacant_pad E (some a) = Except.ok (-1) := by
  rcases find_vacant_pad_loop_cases a E.MAX_USERS 0 (by omega) with
    ⟨h1, _⟩ | ⟨p, _, _, h3, h4, _⟩
  · exact h1
  · have hc := hfull p (by omega)
    rw [slot_vacant_not_connected a p h4] at hc
    exact absurd hc (by decide)

/-- The descriptor scan either changes nothing and yields `-1`, or yields the slot
index it was given. -/
theorem pad_init_loop_cases (name : Option String) (vid pid : Nat) (data ptr : ptr_t)
    (pad : Nat) (s : joypad_connection_t W) (a : List (joypad_connection_t W))
    (dw : driver_world W) (rows : List (pad_map_entry W)) :
    pad_init_loop name vid pid data ptr pad s a dw rows = (-1, a, dw) ∨
      (pad_init_loop name vid pid data ptr pad s a dw rows).1 = (pad : Int) := by
  cases name with
  | none => exact Or.inl (pad_init_loop_null_name vid pid data ptr pad s a dw rows)
  | some nm =>
    rw [pad_init_loop_find]
    cases rows.find? (fun e => decide (descriptor_matches nm vid pid e)) with
    | none => exact Or.inl rfl
    | some e => exact Or.inr rfl

/-- Every row of the table carries a non-empty name. -/
theorem pad_map_name_ne_nil (E : joypad_env W) (r : pad_map_entry W)
    (hr : r ∈ pad_map E) : r.name.toList ≠ [] := by
  simp only [pad_map, List.mem_cons, List.mem_singleton, List.not_mem_nil, or_false] at hr
  rcases hr with h | h | h <;> subst h <;> dsimp only <;> decide

/-! ## Lemmas on `pad_connection_pad_deinit` and `pad_connection_init` -/

/-- Teardown of a slot that is not connected changes nothing. -/
theorem pad_deinit_of_not_connected (s : joypad_connection_t W) (pad : Nat)
    (dw : driver_world W) (hc : s.connected = false) :
    pad_connection_pad_deinit (some s) pad dw = Except.ok (some s, dw) := by
  simp [pad_connection_pad_deinit, hc]

/-- Teardown of a connected slot whose driver has a `set_rumble` entry. -/
theorem pad_deinit_of_rumble (s : joypad_connection_t W) (pad : Nat) (dw : driver_world W)
    (d : pad_connection_interface_t W) (f : ptr_t → retro_rumble_effect → Nat → W → W)
    (hc : s.connected = true) (hd : s.iface = some d) (hf : d.set_rumble = some f) :
    pad_connection_pad_deinit (some s) pad dw =
      Except.ok (some (torn_down_slot s), teardown_world d f s.data dw) := by
  unfold pad_connection_pad_deinit
  simp only [hc, hd, call_set_rumble, hf, teardown_world, torn_down_slot]
  cases d.deinit with
  | none => rfl
  | some g => rfl

/-- Teardown of a connected slot without a driver interface makes no driver call. -/
theorem pad_deinit_of_no_iface (s : joypad_connection_t W) (pad : Nat)
    (dw : driver_world W) (hc : s.connected = true) (hd : s.iface = none) :
    pad_connection_pad_deinit (some s) pad dw =
      Except.ok (some (torn_down_slot s), dw) := by
  unfold pad_connection_pad_deinit
  simp [hc, hd, torn_down_slot]

/-- Teardown of a connected slot whose driver has no `set_rumble` entry calls through
the `NULL` function pointer. -/
theorem pad_deinit_of_no_rumble (s : joypad_connection_t W) (pad : Nat)
    (dw : driver_world W) (d : pad_connection_interface_t W)
    (hc : s.connected = true) (hd : s.iface = some d) (hf : d.set_rumble = none) :
    pad_connection_pad_deinit (some s) pad dw = Except.error fault.null_call := by
  unfold pad_connection_pad_deinit
  simp [hc, hd, call_set_rumble, hf]

/-- Writing back the element already stored at an index leaves the list as it is. -/
theorem set_getElem?_same {α : Type} (l : List α) (i : Nat) (x : α)
    (h : l[i]? = some x) : l.set i x = l := by
  apply List.ext_getElem?
  intro j
  rw [List.getElem?_set]
  by_cases hij : i = j
  · subst hij
    have hlt : i < l.length := by
      obtain ⟨hlt, _⟩ := List.getElem?_eq_some.mp h
      exact hlt
    simp [hlt, h]
  · simp [hij]

/-- The loop of `pad_connection_init` leaves an all-zero array as it is. -/
theorem pad_connection_init_loop_zeroed :
    ∀ (n i : Nat) (l : List (joypad_connection_t W)),
      (∀ s, s ∈ l → s = zeroed_slot) → pad_connection_init_loop n i l = l := by
  intro n
  induction n with
  | zero => intro i l _; rfl
  | succ n ih =>
    intro i l hl
    unfold pad_connection_init_loop
    cases hs : l[i]? with
    | none => exact ih (i + 1) l hl
    | some conn =>
      have hconn : conn = zeroed_slot := hl conn (List.getElem?_mem hs)
      subst hconn
      have hset : l.set i (zeroed_slot : joypad_connection_t W) = l :=
        set_getElem?_same l i zeroed_slot hs
      simp only
      simp only [zeroed_slot] at hset ⊢
      rw [hset]
      exact ih (i + 1) l hl

/-- A successful `pad_connection_init(pads)` yields `pads` empty slots. -/
theorem pad_connection_init_eq (pads : Nat) :
    (pad_connection_init true pads : registry W) =
      some (List.replicate pads zeroed_slot) := by
  unfold pad_connection_init
  simp only [if_true]
  rw [pad_connection_init_loop_zeroed]
  intro s hs
  exact List.eq_of_mem_replicate hs

/-! ## Lemmas on sequences of `connect` calls -/

theorem slot_connected_set (a : List (joypad_connection_t W)) (p j : Nat)
    (x : joypad_connection_t W) (hp : p < a.length) :
    slot_connected (a.set p x) j = if p = j then x.connected else slot_connected a j := by
  unfold slot_connected
  rw [List.getElem?_set]
  by_cases hpj : p = j
  · subst hpj
    simp [hp]
  · simp [hpj]

theorem slot_vacant_set (a : List (joypad_connection_t W)) (p j : Nat)
    (x : joypad_connection_t W) (hp : p < a.length) :
    slot_vacant (a.set p x) j = if p = j then !x.connected else slot_vacant a j := by
  unfold slot_vacant
  rw [List.getElem?_set]
  by_cases hpj : p = j
  · subst hpj
    simp [hp]
  · simp [hpj]

theorem table_bound_connected (E : joypad_env W) (a : List (joypad_connection_t W))
    (j : Nat) (h : table_bound E a j) : slot_connected a j = true := by
  obtain ⟨e, data, _, hs⟩ := h
  simp [slot_connected, hs, bound_slot]

/-- Every slot of an all-zero array is vacant. -/
theorem slot_vacant_replicate (n j : Nat) (hj : j < n) :
    slot_vacant (List.replicate n (zeroed_slot : joypad_connection_t W)) j = true := by
  simp [slot_vacant, List.getElem?_replicate, hj, zeroed_slot]

/-- The scan returns `p` when slot `p` is vacant and every slot below is connected. -/
theorem find_vacant_pad_eq (E : joypad_env W) (a : List (joypad_connection_t W)) (p : Nat)
    (hlen : a.length = E.MAX_USERS) (hp : p < E.MAX_USERS)
    (hv : slot_vacant a p = true) (hbelow : ∀ j, j < p → slot_connected a j = true) :
    pad_connection_find_vacant_pad E (some a) = Except.ok (p : Int) := by
  obtain ⟨q, hq, _, hqv, hqb⟩ := find_vacant_pad_of_vacant E a hlen ⟨p, hp, hv⟩
  have hqp : q = p := by
    rcases Nat.lt_trichotomy q p with hlt | heq | hgt
    · have hc := hbelow q hlt
      rw [slot_vacant_not_connected a q hqv] at hc
      exact absurd hc (by decide)
    · exact heq
    · have hc := hqb p hgt
      rw [slot_vacant_not_connected a p hv] at hc
      exact absurd hc (by decide)
  rw [← hqp]
  exact hq

/-- `connect` of a recognised device on an array of `MAX_USERS` slots whose least vacant
index is `p` binds slot `p` to a row of the table. -/
theorem pad_init_recognized (E : joypad_env W) (a : List (joypad_connection_t W)) (p : Nat)
    (d : device) (dw : driver_world W)
    (hlen : a.length = E.MAX_USERS) (hp : p < E.MAX_USERS)
    (hv : slot_vacant a p = true) (hbelow : ∀ j, j < p → slot_connected a j = true)
    (hrec : recognized E d) :
    ∃ e, e ∈ pad_map E ∧
      pad_connection_pad_init E (some a) d.name d.vid d.pid d.data d.ptr dw =
        connect_binds a p e.iface d.data d.ptr dw := by
  obtain ⟨nm, hnm, e, he⟩ := hrec
  refine ⟨e, List.mem_of_find?_eq_some he, ?_⟩
  rw [pad_init_of_vacant E a p d.name d.vid d.pid d.data d.ptr dw
    (find_vacant_pad_eq E a p hlen hp hv hbelow) hv, hnm]
  simp only [he, connect_binds]

/-- Successive `connect` calls of recognised devices on an array whose first `k` slots
are bound and whose other slots are vacant return `k, k+1, ...` and extend the bound
block, leaving the slots below `k` as they were. -/
theorem connect_all_block (E : joypad_env W) :
    ∀ (devs : List device) (a : List (joypad_connection_t W)) (k : Nat)
      (dw : driver_world W),
      a.length = E.MAX_USERS → k + devs.length ≤ E.MAX_USERS →
      (∀ j, j < k → table_bound E a j) →
      (∀ j, k ≤ j → j < E.MAX_USERS → slot_vacant a j = true) →
      (∀ d, d ∈ devs → recognized E d) →
      ∃ (b : List (joypad_connection_t W)) (dw1 : driver_world W),
        connect_all E devs (some a) dw =
          Except.ok ((List.range' k devs.length).map Int.ofNat, some b, dw1) ∧
        b.length = E.MAX_USERS ∧
        (∀ j, j < k + devs.length → table_bound E b j) ∧
        (∀ j, k + devs.length ≤ j → j < E.MAX_USERS → slot_vacant b j = true) ∧
        (∀ j, j < k → b[j]? = a[j]?) := by
  intro devs
  induction devs with
  | nil =>
    intro a k dw hlen _ hb hv _
    exact ⟨a, dw, rfl, hlen, fun j hj => hb j (by simpa using hj),
      fun j hj1 hj2 => hv j (by simpa using hj1) hj2, fun _ _ => rfl⟩
  | cons d ds ih =>
    intro a k dw hlen hk hb hv hrec
    simp only [List.length_cons] at hk
    have hklt : k < E.MAX_USERS := by omega
    obtain ⟨e, hmem, hconn⟩ := pad_init_recognized E a k d dw hlen hklt
      (hv k (le_refl k) hklt) (fun j hj => table_bound_connected E a j (hb j hj))
      (hrec d (List.mem_cons_self d ds))
    have hka : k < a.length := by omega
    obtain ⟨b, dw1, hrun, hblen, hbb, hbv, hbsame⟩ :=
      ih (a.set k (bound_slot e.iface (call_init e.iface d.data k d.ptr dw).1)) (k + 1)
        (call_init e.iface d.data k d.ptr dw).2
        (by simpa using hlen) (by omega)
        (by
          intro j hj
          by_cases hjk : j = k
          · subst hjk
            exact ⟨e, _, hmem, List.getElem?_set_self hka⟩
          · obtain ⟨e1, x1, hm1, hs1⟩ := hb j (by omega)
            exact ⟨e1, x1, hm1, by
              rw [List.getElem?_set_ne (fun h => hjk h.symm)]; exact hs1⟩)
        (by
          intro j hj1 hj2
          rw [slot_vacant_set a k j _ hka]
          have hne : ¬ k = j := by omega
          simp only [hne, if_false]
          exact hv j (by omega) hj2)
        (fun d1 hd1 => hrec d1 (List.mem_cons_of_mem d hd1))
    refine ⟨b, dw1, ?_, hblen, ?_, ?_, ?_⟩
    · unfold connect_all
      rw [hconn]
      simp only [connect_binds]
      rw [hrun]
      simp [List.range'_succ]
    · intro j hj
      exact hbb j (by simp only [List.length_cons] at hj; omega)
    · intro j hj1 hj2
      exact hbv j (by simp only [List.length_cons] at hj1; omega) hj2
    · intro j hj
      rw [hbsame j (by omega)]
      exact List.getElem?_set_ne (by omega)

/-- The call `pad_connection_pad_deinit(&joyconn[i], i)` on a connected slot: when it
returns, only slot `i` changed and it is torn down; it does return when the slot has no
driver interface or its driver has a `set_rumble` entry. -/
theorem pad_deinit_at_connected (a : List (joypad_connection_t W)) (i : Nat)
    (s : joypad_connection_t W) (dw : driver_world W)
    (hs : a[i]? = some s) (hc : s.connected = true) :
    (∀ b dw1, pad_deinit_at a i dw = Except.ok (b, dw1) →
        b = a.set i (torn_down_slot s)) ∧
    ((∀ d, s.iface = some d → d.set_rumble.isSome = true) →
        ∃ dw1, pad_deinit_at a i dw = Except.ok (a.set i (torn_down_slot s), dw1)) := by
  unfold pad_deinit_at
  rw [hs]
  dsimp only
  cases hd : s.iface with
  | none =>
    rw [pad_deinit_of_no_iface s i dw hc hd]
    refine ⟨?_, fun _ => ⟨dw, rfl⟩⟩
    intro b dw1 h
    simp only [Except.ok.injEq, Prod.mk.injEq] at h
    exact h.1.symm
  | some d =>
    cases hf : d.set_rumble with
    | none =>
      rw [pad_deinit_of_no_rumble s i dw d hc hd hf]
      refine ⟨?_, ?_⟩
      · intro b dw1 h
        cases h
      · intro h
        have hsome := h d rfl
        rw [hf] at hsome
        exact absurd hsome (by simp)
    | some f =>
      rw [pad_deinit_of_rumble s i dw d f hc hd hf]
      refine ⟨?_, fun _ => ⟨teardown_world d f s.data dw, rfl⟩⟩
      intro b dw1 h
      simp only [Except.ok.injEq, Prod.mk.injEq] at h
      exact h.1.symm

/-- The value of `pad_connection_has_interface` on a slot that was just written. -/
theorem has_interface_set (E : joypad_env W) (a : List (joypad_connection_t W)) (i : Nat)
    (x : joypad_connection_t W) (hi : i < E.MAX_USERS) (hlen : a.length = E.MAX_USERS) :
    pad_connection_has_interface E (some (a.set i x)) i =
      Except.ok (x.connected && x.iface.isSome) := by
  unfold pad_connection_has_interface
  have hia : i < a.length := by omega
  simp [hi, List.getElem?_set_self hia]

/-- After the teardown of a connected slot `i`, a `connect` of a recognised device
binds the least vacant index `p`, which is at most `i` and equals `i` when every slot
below `i` is connected. -/
theorem reuse_after_teardown (E : joypad_env W) (a : List (joypad_connection_t W))
    (i : Nat) (s : joypad_connection_t W) (dev : device) (dw1 : driver_world W)
    (hlen : a.length = E.MAX_USERS) (hi : i < E.MAX_USERS) (hrec : recognized E dev) :
    ∃ (p : Nat) (e : pad_map_entry W), e ∈ pad_map E ∧ p ≤ i ∧
      slot_vacant (a.set i (torn_down_slot s)) p = true ∧
      (∀ j, j < p → slot_connected (a.set i (torn_down_slot s)) j = true) ∧
      pad_connection_pad_init E (some (a.set i (torn_down_slot s)))
          dev.name dev.vid dev.pid dev.data dev.ptr dw1 =
        connect_binds (a.set i (torn_down_slot s)) p e.iface dev.data dev.ptr dw1 ∧
      ((∀ j, j < i → slot_connected a j = true) → p = i) := by
  have hia : i < a.length := by omega
  have hblen : (a.set i (torn_down_slot s)).length = E.MAX_USERS := by simpa using hlen
  have hvi : slot_vacant (a.set i (torn_down_slot s)) i = true := by
    rw [slot_vacant_set a i i _ hia]
    simp [torn_down_slot]
  obtain ⟨p, _, hplt, hpv, hpb⟩ :=
    find_vacant_pad_of_vacant E (a.set i (torn_down_slot s)) hblen ⟨i, hi, hvi⟩
  have hpi : p ≤ i := by
    by_contra hgt
    have hc := hpb i (by omega)
    rw [slot_vacant_not_connected _ i hvi] at hc
    exact absurd hc (by decide)
  obtain ⟨e, hmem, hconn⟩ :=
    pad_init_recognized E (a.set i (torn_down_slot s)) p dev dw1 hblen hplt hpv hpb hrec
  refine ⟨p, e, hmem, hpi, hpv, hpb, hconn, ?_⟩
  intro hbelow
  by_contra hne
  have hlt : p < i := by omega
  have hc := hbelow p hlt
  have hvp : slot_vacant a p = true := by
    have := hpv
    rw [slot_vacant_set a i p _ hia] at this
    have hip : ¬ i = p := by omega
    simpa [hip] using this
  rw [slot_vacant_not_connected a p hvp] at hc
  exact absurd hc (by decide)

/-! ## Vacant-slot scan -/

/-- C4: on a slot array holding `MAX_USERS` slots, `pad_connection_find_vacant_pad`
returns a value, which is either `-1` or an index below `MAX_USERS`; it returns the
index `i` exactly when slot `i` is not connected and every slot below `i` is connected
(the least vacant index), and it returns `-1` exactly when every slot is connected.  On
a `NULL` array it returns `-1`. -/
theorem find_vacant_pad_least (E : joypad_env W) (a : List (joypad_connection_t W))
    (hlen : a.length = E.MAX_USERS) :
    pad_connection_find_vacant_pad E (none : registry W) = Except.ok (-1) ∧
    (∃ r, pad_connection_find_vacant_pad E (some a) = Except.ok r ∧
        (r = -1 ∨ ∃ i : Nat, i < E.MAX_USERS ∧ r = (i : Int))) ∧
    (∀ i : Nat, pad_connection_find_vacant_pad E (some a) = Except.ok (i : Int) ↔
        (i < E.MAX_USERS ∧ slot_vacant a i = true ∧
          ∀ j, j < i → slot_connected a j = true)) ∧
    (pad_connection_find_vacant_pad E (some a) = Except.ok (-1) ↔
        ∀ i, i < E.MAX_USERS → slot_connected a i = true) := by
  have hcases := find_vacant_pad_loop_cases a E.MAX_USERS 0 (by omega)
  have hdef : pad_connection_find_vacant_pad E (some a) =
      find_vacant_pad_loop a E.MAX_USERS 0 := rfl
  refine ⟨rfl, ?_, ?_, ?_⟩
  · rcases hcases with ⟨h1, _⟩ | ⟨p, h1, _, h3, _, _⟩
    · exact ⟨-1, by rw [hdef, h1], Or.inl rfl⟩
    · exact ⟨(p : Int), by rw [hdef, h1], Or.inr ⟨p, by omega, rfl⟩⟩
  · intro i
    rw [hdef]
    rcases hcases with ⟨h1, h2⟩ | ⟨p, h1, _, h3, h4, h5⟩
    · rw [h1]
      constructor
      · intro h
        have h0 : (-1 : Int) = (i : Int) := by injection h
        omega
      · rintro ⟨hi, hv, _⟩
        have hc := h2 i (by omega) (by omega)
        rw [slot_vacant_not_connected a i hv] at hc
        exact absurd hc (by decide)
    · rw [h1]
      constructor
      · intro h
        have h0 : (p : Int) = (i : Int) := by injection h
        have hpi : p = i := by omega
        subst hpi
        exact ⟨by omega, h4, fun j hj => h5 j (by omega) hj⟩
      · rintro ⟨hi, hv, hbelow⟩
        have hpi : p = i := by
          rcases Nat.lt_trichotomy p i with hlt | heq | hgt
          · have hc := hbelow p hlt
            rw [slot_vacant_not_connected a p h4] at hc
            exact absurd hc (by decide)
          · exact heq
          · have hc := h5 i (by omega) hgt
            rw [slot_vacant_not_connected a i hv] at hc
            exact absurd hc (by decide)
        rw [hpi]
  · rw [hdef]
    rcases hcases with ⟨h1, h2⟩ | ⟨p, h1, _, h3, h4, _⟩
    · rw [h1]
      exact ⟨fun _ i hi => h2 i (by omega) (by omega), fun _ => rfl⟩
    · rw [h1]
      constructor
      · intro h
        have h0 : (p : Int) = -1 := by injection h
        omega
      · intro hall
        have hc := hall p (by omega)
        rw [slot_vacant_not_connected a p h4] at hc
        exact absurd hc (by decide)

/-- On the sample array (slots 0 and 2 bound) the scan returns index 1. -/
theorem find_vacant_pad_least_witness :
    sample_slots.length = sample_env.MAX_USERS ∧
    pad_connection_find_vacant_pad sample_env (some sample_slots) = Except.ok ((1 : Nat) : Int) :=
  ⟨by decide,
   ((find_vacant_pad_least sample_env sample_slots (by decide)).2.2.1 1).mpr
     ⟨by decide, by decide, by decide⟩⟩

/-! ## Identification and binding -/

/-- C1 (counterexample): on the sample array, whose lowest vacant slot is 1, a device
named "Wireless Controller" matches the PS4 row; that row's `init` returns the `NULL`
instance, yet `connect` returns index 1 and slot 1 ends connected with the driver
interface stored. -/
theorem connect_null_init_counterexample :
    slot_vacant sample_slots 1 = true ∧
    first_match null_init_env "Wireless Controller" 0 0 =
      some { name := "Wireless Controller", vid := 1356, pid := 1476,
             iface := null_init_iface } ∧
    (null_init_iface.init 5 1 6 sample_world.world).1 = 0 ∧
    pad_connection_pad_init null_init_env (some sample_slots)
        (some "Wireless Controller") 0 0 5 6 sample_world =
      Except.ok (1,
        some [ bound_slot (sample_iface 3) 7, bound_slot null_init_iface 0,
               bound_slot (sample_iface 2) 9, zeroed_slot ],
        { world := 1, calls := [driver_call.init null_init_iface 5 1 6] }) := by
  have hp : pad_connection_find_vacant_pad null_init_env (some sample_slots) =
      Except.ok ((1 : Nat) : Int) := rfl
  have hm : first_match null_init_env "Wireless Controller" 0 0 =
      some { name := "Wireless Controller", vid := 1356, pid := 1476,
             iface := null_init_iface } := rfl
  refine ⟨by decide, hm, rfl, ?_⟩
  rw [pad_init_of_vacant null_init_env sample_slots 1 _ 0 0 5 6 sample_world hp (by decide)]
  simp only [hm]
  rfl

/-- C1 (amended): on a slot array of `MAX_USERS` slots with a vacant slot, for a device
with a name whose first matching row is `e`, when `e`'s `init` returns the `NULL`
instance `connect` still returns the least vacant index `p` and binds slot `p`: the slot
becomes connected, holds `e`'s interface and a `NULL` data pointer, the other slots are
unchanged and `init` was the only driver call. -/
theorem connect_null_init_binds (E : joypad_env W) (a : List (joypad_connection_t W))
    (nm : String) (vid pid : Nat) (data ptr : ptr_t) (dw : driver_world W)
    (e : pad_map_entry W)
    (hlen : a.length = E.MAX_USERS)
    (hvac : ∃ i, i < E.MAX_USERS ∧ slot_vacant a i = true)
    (hm : first_match E nm vid pid = some e) :
    ∃ p : Nat, p < E.MAX_USERS ∧ slot_vacant a p = true ∧
      (∀ j, j < p → slot_connected a j = true) ∧
      ((e.iface.init data p ptr dw.world).1 = 0 →
        pad_connection_pad_init E (some a) (some nm) vid pid data ptr dw =
          Except.ok ((p : Int), some (a.set p (bound_slot e.iface 0)),
            { world := (e.iface.init data p ptr dw.world).2,
              calls := dw.calls ++ [driver_call.init e.iface data p ptr] })) := by
  obtain ⟨p, hp, hlt, hv, hleast⟩ := find_vacant_pad_of_vacant E a hlen hvac
  refine ⟨p, hlt, hv, hleast, ?_⟩
  intro hnull
  rw [pad_init_of_vacant E a p (some nm) vid pid data ptr dw hp hv]
  simp only [hm, call_init, hnull]

/-- The amended C1 statement on the sample array with the failing PS4 driver. -/
theorem connect_null_init_binds_witness :
    ∃ p : Nat, p < null_init_env.MAX_USERS ∧ slot_vacant sample_slots p = true ∧
      (∀ j, j < p → slot_connected sample_slots j = true) ∧
      ((null_init_iface.init 5 p 6 sample_world.world).1 = 0 →
        pad_connection_pad_init null_init_env (some sample_slots)
            (some "Wireless Controller") 0 0 5 6 sample_world =
          Except.ok ((p : Int), some (sample_slots.set p (bound_slot null_init_iface 0)),
            { world := (null_init_iface.init 5 p 6 sample_world.world).2,
              calls := sample_world.calls ++ [driver_call.init null_init_iface 5 p 6] })) :=
  connect_null_init_binds null_init_env sample_slots "Wireless Controller" 0 0 5 6
    sample_world
    { name := "Wireless Controller", vid := 1356, pid := 1476, iface := null_init_iface }
    (by decide) ⟨1, by decide, by decide⟩ rfl

/-- C2: on a slot array of `MAX_USERS` slots with a vacant slot, whose least vacant
index is `p`, `connect` with a name present binds slot `p` to the first row of the table
(Wii "Nintendo RVL-CNT-01"/1406/816, PS4 "Wireless Controller"/1356/1476, PS3
"PLAYSTATION(R)3 Controller"/1356/616, in this order) whose name occurs in the device
name or whose id pair equals the device's, calling only that row's `init`; when no row
matches it returns `-1` and changes nothing.  A device named "Wireless Controller" whose
ids are not the Wii ids binds PS4; a device with ids (1356, 616) whose name contains
neither the Wii nor the PS4 name binds PS3. -/
theorem connect_first_match (E : joypad_env W) (a : List (joypad_connection_t W))
    (data ptr : ptr_t) (dw : driver_world W)
    (hlen : a.length = E.MAX_USERS)
    (hvac : ∃ i, i < E.MAX_USERS ∧ slot_vacant a i = true) :
    pad_map E =
      [ { name := "Nintendo RVL-CNT-01", vid := 1406, pid := 816,
          iface := E.pad_connection_wii },
        { name := "Wireless Controller", vid := 1356, pid := 1476,
          iface := E.pad_connection_ps4 },
        { name := "PLAYSTATION(R)3 Controller", vid := 1356, pid := 616,
          iface := E.pad_connection_ps3 } ] ∧
    ∃ p : Nat, p < E.MAX_USERS ∧ slot_vacant a p = true ∧
      (∀ j, j < p → slot_connected a j = true) ∧
      (∀ (nm : String) (vid pid : Nat) (e : pad_map_entry W),
        (pad_map E).find? (fun r => decide (descriptor_matches nm vid pid r)) = some e →
        pad_connection_pad_init E (some a) (some nm) vid pid data ptr dw =
          connect_binds a p e.iface data ptr dw) ∧
      (∀ (nm : String) (vid pid : Nat),
        (∀ r, r ∈ pad_map E → ¬ descriptor_matches nm vid pid r) →
        pad_connection_pad_init E (some a) (some nm) vid pid data ptr dw =
          Except.ok (-1, some a, dw)) ∧
      (∀ vid pid : Nat, ¬ (vid = 1406 ∧ pid = 816) →
        pad_connection_pad_init E (some a) (some "Wireless Controller") vid pid data ptr dw =
          connect_binds a p E.pad_connection_ps4 data ptr dw) ∧
      (∀ nm : String, ¬ "Nintendo RVL-CNT-01".toList <:+: nm.toList →
        ¬ "Wireless Controller".toList <:+: nm.toList →
        pad_connection_pad_init E (some a) (some nm) 1356 616 data ptr dw =
          connect_binds a p E.pad_connection_ps3 data ptr dw) := by
  refine ⟨rfl, ?_⟩
  obtain ⟨p, hp, hlt, hv, hleast⟩ := find_vacant_pad_of_vacant E a hlen hvac
  have hgen : ∀ (nm : String) (vid pid : Nat) (e : pad_map_entry W),
      (pad_map E).find? (fun r => decide (descriptor_matches nm vid pid r)) = some e →
      pad_connection_pad_init E (some a) (some nm) vid pid data ptr dw =
        connect_binds a p e.iface data ptr dw := by
    intro nm vid pid e he
    rw [pad_init_of_vacant E a p (some nm) vid pid data ptr dw hp hv]
    have he1 : first_match E nm vid pid = some e := he
    simp only [he1, connect_binds]
  refine ⟨p, hlt, hv, hleast, hgen, ?_, ?_, ?_⟩
  · intro nm vid pid hnone
    rw [pad_init_of_vacant E a p (some nm) vid pid data ptr dw hp hv]
    have hf : first_match E nm vid pid = none := by
      unfold first_match
      rw [List.find?_eq_none]
      intro r hr
      simpa using hnone r hr
    simp only [hf]
  · intro vid pid hids
    have hfind : (pad_map E).find?
        (fun r => decide (descriptor_matches "Wireless Controller" vid pid r)) =
        some { name := "Wireless Controller", vid := 1356, pid := 1476,
               iface := E.pad_connection_ps4 } := by
      have h1 : ¬ descriptor_matches "Wireless Controller" vid pid
          ({ name := "Nintendo RVL-CNT-01", vid := 1406, pid := 816,
             iface := E.pad_connection_wii } : pad_map_entry W) := by
        simp only [descriptor_matches]
        rintro (h | ⟨h1, h2⟩)
        · exact absurd h (by decide)
        · exact hids ⟨h1.symm, h2.symm⟩
      have h2 : descriptor_matches "Wireless Controller" vid pid
          ({ name := "Wireless Controller", vid := 1356, pid := 1476,
             iface := E.pad_connection_ps4 } : pad_map_entry W) := by
        simp only [descriptor_matches]
        exact Or.inl (by decide)
      simp [pad_map, List.find?_cons, h1, h2]
    exact hgen _ vid pid _ hfind
  · intro nm hwii hps4
    have hfind : (pad_map E).find?
        (fun r => decide (descriptor_matches nm 1356 616 r)) =
        some { name := "PLAYSTATION(R)3 Controller", vid := 1356, pid := 616,
               iface := E.pad_connection_ps3 } := by
      have h1 : ¬ descriptor_matches nm 1356 616
          ({ name := "Nintendo RVL-CNT-01", vid := 1406, pid := 816,
             iface := E.pad_connection_wii } : pad_map_entry W) := by
        simp only [descriptor_matches]
        rintro (h | ⟨h1, _⟩)
        · exact hwii h
        · exact absurd h1 (by decide)
      have h2 : ¬ descriptor_matches nm 1356 616
          ({ name := "Wireless Controller", vid := 1356, pid := 1476,
             iface := E.pad_connection_ps4 } : pad_map_entry W) := by
        simp only [descriptor_matches]
        rintro (h | ⟨_, h2⟩)
        · exact hps4 h
        · exact absurd h2 (by decide)
      have h3 : descriptor_matches nm 1356 616
          ({ name := "PLAYSTATION(R)3 Controller", vid := 1356, pid := 616,
             iface := E.pad_connection_ps3 } : pad_map_entry W) := by
        unfold descriptor_matches
        exact Or.inr ⟨rfl, rfl⟩
      simp [pad_map, List.find?_cons, h1, h2, h3]
    exact hgen nm 1356 616 _ hfind

/-- The PS4 case of C2 on the sample array: "Wireless Controller" with ids (0, 0). -/
theorem connect_first_match_witness :
    ∃ p : Nat, p < sample_env.MAX_USERS ∧
      pad_connection_pad_init sample_env (some sample_slots) (some "Wireless Controller")
          0 0 5 6 sample_world =
        connect_binds sample_slots p sample_env.pad_connection_ps4 5 6 sample_world :=
  let ⟨_, p, hlt, _, _, _, _, hps4, _⟩ :=
    connect_first_match sample_env sample_slots 5 6 sample_world (by decide)
      ⟨1, by decide, by decide⟩
  ⟨p, hlt, hps4 0 0 (by decide)⟩

/-- C3 (counterexample): on the sample array, which has a vacant slot, a device with a
`NULL` name and the PS3 id pair (1356, 616) is not bound: `connect` returns `-1` and
leaves the array and the driver world unchanged. -/
theorem connect_null_name_counterexample :
    slot_vacant sample_slots 1 = true ∧
    (∃ r, r ∈ pad_map sample_env ∧ r.vid = 1356 ∧ r.pid = 616) ∧
    pad_connection_pad_init sample_env (some sample_slots) none 1356 616 5 6 sample_world =
      Except.ok (-1, some sample_slots, sample_world) :=
  ⟨by decide,
   ⟨{ name := "PLAYSTATION(R)3 Controller", vid := 1356, pid := 616,
      iface := sample_env.pad_connection_ps3 }, by simp [pad_map], rfl, rfl⟩,
   rfl⟩

/-- C3 (amended): on a slot array of `MAX_USERS` slots with a vacant slot, a device whose
id pair equals the id pair of some row is bound for every name that is present (not
`NULL`): `connect` returns the least vacant index `p` and binds slot `p` to a row of the
table; with the empty name the bound row is one with the device's id pair.  With a
`NULL` name `connect` returns `-1` and changes nothing. -/
theorem connect_matched_ids (E : joypad_env W) (a : List (joypad_connection_t W))
    (vid pid : Nat) (data ptr : ptr_t) (dw : driver_world W)
    (hlen : a.length = E.MAX_USERS)
    (hvac : ∃ i, i < E.MAX_USERS ∧ slot_vacant a i = true)
    (hids : ∃ r, r ∈ pad_map E ∧ r.vid = vid ∧ r.pid = pid) :
    ∃ p : Nat, p < E.MAX_USERS ∧ slot_vacant a p = true ∧
      (∀ j, j < p → slot_connected a j = true) ∧
      (∀ nm : String, ∃ e, e ∈ pad_map E ∧
        pad_connection_pad_init E (some a) (some nm) vid pid data ptr dw =
          connect_binds a p e.iface data ptr dw) ∧
      (∃ e, e ∈ pad_map E ∧ e.vid = vid ∧ e.pid = pid ∧
        pad_connection_pad_init E (some a) (some "") vid pid data ptr dw =
          connect_binds a p e.iface data ptr dw) ∧
      pad_connection_pad_init E (some a) none vid pid data ptr dw =
        Except.ok (-1, some a, dw) := by
  obtain ⟨p, hp, hlt, hv, hleast⟩ := find_vacant_pad_of_vacant E a hlen hvac
  obtain ⟨r, hr, hrv, hrp⟩ := hids
  have hsome : ∀ nm : String, ∃ e, first_match E nm vid pid = some e := by
    intro nm
    cases hf : first_match E nm vid pid with
    | some e => exact ⟨e, rfl⟩
    | none =>
      unfold first_match at hf
      rw [List.find?_eq_none] at hf
      have hnot := hf r hr
      have hyes : descriptor_matches nm vid pid r := Or.inr ⟨hrv, hrp⟩
      simp [hyes] at hnot
  have hbind : ∀ (nm : String) (e : pad_map_entry W), first_match E nm vid pid = some e →
      pad_connection_pad_init E (some a) (some nm) vid pid data ptr dw =
        connect_binds a p e.iface data ptr dw := by
    intro nm e he
    rw [pad_init_of_vacant E a p (some nm) vid pid data ptr dw hp hv]
    simp only [he, connect_binds]
  refine ⟨p, hlt, hv, hleast, ?_, ?_, ?_⟩
  · intro nm
    obtain ⟨e, he⟩ := hsome nm
    exact ⟨e, List.mem_of_find?_eq_some he, hbind nm e he⟩
  · obtain ⟨e, he⟩ := hsome ""
    have hmem : e ∈ pad_map E := List.mem_of_find?_eq_some he
    have hmatch : descriptor_matches "" vid pid e := by
      have := List.find?_some he
      simpa using this
    rcases hmatch with hin | ⟨h1, h2⟩
    · have hnil : e.name.toList = [] := by
        have : ("" : String).toList = [] := rfl
        rw [this] at hin
        exact List.infix_nil.mp hin
      exact absurd hnil (pad_map_name_ne_nil E e hmem)
    · exact ⟨e, hmem, h1, h2, hbind "" e he⟩
  · rw [pad_init_of_vacant E a p none vid pid data ptr dw hp hv]

/-- The amended C3 statement on the sample array: the PS3 id pair with an empty name. -/
theorem connect_matched_ids_witness :
    ∃ p : Nat, p < sample_env.MAX_USERS ∧
      ∃ e, e ∈ pad_map sample_env ∧ e.vid = 1356 ∧ e.pid = 616 ∧
        pad_connection_pad_init sample_env (some sample_slots) (some "") 1356 616 5 6
            sample_world =
          connect_binds sample_slots p e.iface 5 6 sample_world :=
  let ⟨p, hlt, _, _, _, ⟨e, hmem, h1, h2, hb⟩, _⟩ :=
    connect_matched_ids sample_env sample_slots 1356 616 5 6 sample_world (by decide)
      ⟨1, by decide, by decide⟩
      ⟨{ name := "PLAYSTATION(R)3 Controller", vid := 1356, pid := 616,
         iface := sample_env.pad_connection_ps3 }, by simp [pad_map], rfl, rfl⟩
  ⟨p, hlt, e, hmem, h1, h2, hb⟩

/-- C5: whenever `connect` returns `-1`, the slot array and the driver world (hence the
log of driver calls: no `init`, `set_rumble`, `deinit` or `packet_handler` call) are
exactly as before.  `connect` does return `-1` on a full array of `MAX_USERS` slots for
every device, and on an array of `MAX_USERS` slots for a named device that no row of the
table matches. -/
theorem connect_failure_frame (E : joypad_env W) (joyconn : registry W)
    (name : Option String) (vid pid : Nat) (data ptr : ptr_t) (dw : driver_world W) :
    (∀ (r : registry W) (dw1 : driver_world W),
      pad_connection_pad_init E joyconn name vid pid data ptr dw = Except.ok (-1, r, dw1) →
        r = joyconn ∧ dw1 = dw ∧ dw1.calls = dw.calls) ∧
    (∀ a : List (joypad_connection_t W), joyconn = some a → a.length = E.MAX_USERS →
      (∀ i, i < E.MAX_USERS → slot_connected a i = true) →
      pad_connection_pad_init E joyconn name vid pid data ptr dw =
        Except.ok (-1, joyconn, dw)) ∧
    (∀ (a : List (joypad_connection_t W)) (nm : String), joyconn = some a →
      a.length = E.MAX_USERS → name = some nm →
      (∀ r, r ∈ pad_map E → ¬ descriptor_matches nm vid pid r) →
      pad_connection_pad_init E joyconn name vid pid data ptr dw =
        Except.ok (-1, joyconn, dw)) := by
  refine ⟨?_, ?_, ?_⟩
  · intro r dw1 hres
    unfold pad_connection_pad_init at hres
    cases hfind : pad_connection_find_vacant_pad E joyconn with
    | error f => rw [hfind] at hres; cases hres
    | ok pad =>
      rw [hfind] at hres
      by_cases hpad : pad = -1
      · subst hpad
        simp only [bne_self_eq_false, Bool.false_eq_true, if_false] at hres
        injection hres with h
        injection h with _ h2
        injection h2 with h3 h4
        exact ⟨h3.symm, h4.symm, by rw [← h4]⟩
      · have hne : (pad != -1) = true := by simpa using hpad
        simp only [hne, if_true] at hres
        cases joyconn with
        | none => cases hres
        | some a =>
          simp only at hres
          cases hs : a[pad.toNat]? with
          | none => rw [hs] at hres; cases hres
          | some s =>
            rw [hs] at hres
            simp only at hres
            injection hres with h
            injection h with h1 h2
            injection h2 with h3 h4
            rcases pad_init_loop_cases name vid pid data ptr pad.toNat s a dw (pad_map E)
              with hloop | hloop
            · rw [hloop] at h3 h4
              exact ⟨h3.symm, h4.symm, by rw [← h4]⟩
            · rw [hloop] at h1
              omega
  · intro a ha hlen hfull
    subst ha
    exact pad_init_of_no_vacant E (some a) name vid pid data ptr dw
      (find_vacant_pad_of_full E a hlen hfull)
  · intro a nm ha hlen hname hnone
    subst ha
    subst hname
    rcases find_vacant_pad_loop_cases a E.MAX_USERS 0 (by omega) with
      ⟨h1, _⟩ | ⟨p, h1, _, _, h4, _⟩
    · exact pad_init_of_no_vacant E (some a) (some nm) vid pid data ptr dw h1
    · rw [pad_init_of_vacant E a p (some nm) vid pid data ptr dw h1 h4]
      have hf : first_match E nm vid pid = none := by
        unfold first_match
        rw [List.find?_eq_none]
        intro r hr
        simpa using hnone r hr
      simp only [hf]

/-- C5 on the sample arrays: a recognised device on the full array, and an unknown
device on the array with vacant slots, are both refused with nothing changed. -/
theorem connect_failure_frame_witness :
    pad_connection_pad_init sample_env (some full_slots) (some "Wireless Controller")
        1356 1476 5 6 sample_world =
      Except.ok (-1, some full_slots, sample_world) ∧
    pad_connection_pad_init sample_env (some sample_slots) (some "Generic USB Joystick")
        121 6 5 6 sample_world =
      Except.ok (-1, some sample_slots, sample_world) :=
  ⟨(connect_failure_frame sample_env (some full_slots) (some "Wireless Controller")
      1356 1476 5 6 sample_world).2.1 full_slots rfl (by decide) (by decide),
   (connect_failure_frame sample_env (some sample_slots) (some "Generic USB Joystick")
      121 6 5 6 sample_world).2.2 sample_slots "Generic USB Joystick" rfl (by decide) rfl
      (by
        intro r hr
        simp only [pad_map, List.mem_cons, List.mem_singleton, List.not_mem_nil,
          or_false] at hr
        rcases hr with h | h | h <;> subst h <;> simp only [descriptor_matches] <;> decide)⟩

/-! ## Allocation order -/

/-- C6: starting from the array built by `pad_connection_init(MAX_USERS)`, successive
`connect` calls with recognised devices, at most `MAX_USERS` of them, all return an
index, and the call number `k` (counting from 0) returns `k`: the returned values are
`0, 1, 2, ...` in call order, so `MAX_USERS` calls return each index of the array
exactly once. -/
theorem connect_fresh_ascending (E : joypad_env W) (devs : List device)
    (dw : driver_world W) (hN : devs.length ≤ E.MAX_USERS)
    (hrec : ∀ d, d ∈ devs → recognized E d) :
    ∃ (ps : List Int) (b : List (joypad_connection_t W)) (dw1 : driver_world W),
      connect_all E devs (pad_connection_init true E.MAX_USERS) dw =
        Except.ok (ps, some b, dw1) ∧
      ps = (List.range devs.length).map Int.ofNat ∧
      (∀ k, k < devs.length → ps[k]? = some (k : Int)) ∧
      (∀ j, j < devs.length → slot_connected b j = true) := by
  have hvac : ∀ j, 0 ≤ j → j < E.MAX_USERS →
      slot_vacant (List.replicate E.MAX_USERS (zeroed_slot : joypad_connection_t W)) j
        = true := by
    intro j _ hj
    exact slot_vacant_replicate E.MAX_USERS j hj
  obtain ⟨b, dw1, hrun, _, hb, _, _⟩ :=
    connect_all_block E devs (List.replicate E.MAX_USERS zeroed_slot) 0 dw
      (by simp) (by omega) (fun j hj => absurd hj (by omega)) hvac hrec
  refine ⟨(List.range devs.length).map Int.ofNat, b, dw1, ?_, rfl, ?_, ?_⟩
  · rw [pad_connection_init_eq, hrun, List.range_eq_range']
  · intro k hk
    simp [List.getElem?_range, hk]
  · intro j hj
    exact table_bound_connected E b j (hb j (by omega))

/-- C6 on the sample environment: four recognised devices return 0, 1, 2, 3. -/
theorem connect_fresh_ascending_witness :
    ∃ (b : List (joypad_connection_t Nat)) (dw1 : driver_world Nat),
      connect_all sample_env scenario_devices (pad_connection_init true 4) sample_world =
        Except.ok ([0, 1, 2, 3], some b, dw1) :=
  let ⟨_, b, dw1, hrun, hps, _, _⟩ :=
    connect_fresh_ascending sample_env scenario_devices sample_world (by decide)
      (by
        intro d hd
        simp only [scenario_devices, List.mem_cons, List.mem_singleton, List.not_mem_nil,
          or_false] at hd
        rcases hd with h | h | h | h <;> subst h <;> exact ⟨_, rfl, _, rfl⟩)
  ⟨b, dw1, by rw [hps] at hrun; exact hrun⟩

/-- Reuse of a torn-down slot, for the teardowns that return: on an array of
`MAX_USERS` slots, when the teardown of a connected slot `i` returns (it does whenever
the slot's driver provides `set_rumble`), then
`pad_connection_has_interface` is false at `i`, the other slots are unchanged, and a
following `connect` of a recognised device binds and returns the least index whose
slot is not connected; that index is at most `i`, and it is `i` when every slot below
`i` is connected.  With `MAX_USERS = 4` and drivers providing `set_rumble`: four
recognised devices connect at 0, 1, 2, 3; after the teardown of slot 1 a fifth
recognised device connects at 1, `pad_connection_has_interface` is true at 1 and slots
0, 2, 3 are unchanged. -/
theorem disconnect_then_reuse (E : joypad_env W) :
    (∀ (a : List (joypad_connection_t W)) (i : Nat) (dev : device) (dw : driver_world W),
      a.length = E.MAX_USERS → i < E.MAX_USERS → slot_connected a i = true →
      recognized E dev →
      ((∀ s d, a[i]? = some s → s.iface = some d → d.set_rumble.isSome = true) →
        ∃ b dw1, pad_deinit_at a i dw = Except.ok (b, dw1)) ∧
      (∀ b dw1, pad_deinit_at a i dw = Except.ok (b, dw1) →
        pad_connection_has_interface E (some b) i = Except.ok false ∧
        (∀ j, j ≠ i → b[j]? = a[j]?) ∧
        ∃ (p : Nat) (e : pad_map_entry W), e ∈ pad_map E ∧ p ≤ i ∧
          slot_vacant b p = true ∧ (∀ j, j < p → slot_connected b j = true) ∧
          pad_connection_pad_init E (some b) dev.name dev.vid dev.pid dev.data dev.ptr dw1 =
            connect_binds b p e.iface dev.data dev.ptr dw1 ∧
          ((∀ j, j < i → slot_connected a j = true) → p = i))) ∧
    (E.MAX_USERS = 4 → drivers_rumble E →
      ∀ (d0 d1 d2 d3 d4 : device) (dw : driver_world W),
        recognized E d0 → recognized E d1 → recognized E d2 → recognized E d3 →
        recognized E d4 →
        ∃ (b : List (joypad_connection_t W)) (dw1 : driver_world W)
          (c : List (joypad_connection_t W)) (dw2 : driver_world W)
          (f : List (joypad_connection_t W)) (dw3 : driver_world W),
          connect_all E [d0, d1, d2, d3] (pad_connection_init true 4) dw =
            Except.ok ([0, 1, 2, 3], some b, dw1) ∧
          pad_deinit_at b 1 dw1 = Except.ok (c, dw2) ∧
          pad_connection_has_interface E (some c) 1 = Except.ok false ∧
          pad_connection_pad_init E (some c) d4.name d4.vid d4.pid d4.data d4.ptr dw2 =
            Except.ok (1, some f, dw3) ∧
          pad_connection_has_interface E (some f) 1 = Except.ok true ∧
          f[0]? = b[0]? ∧ f[2]? = b[2]? ∧ f[3]? = b[3]?) := by
  refine ⟨?_, ?_⟩
  · intro a i dev dw hlen hi hc hrec
    obtain ⟨s, hs, hsc⟩ := (slot_connected_iff a i).mp hc
    obtain ⟨hshape, hruns⟩ := pad_deinit_at_connected a i s dw hs hsc
    refine ⟨?_, ?_⟩
    · intro hrum
      obtain ⟨dw1, h⟩ := hruns (fun d hd => hrum s d hs hd)
      exact ⟨_, dw1, h⟩
    · intro b dw1 hb
      have hbeq := hshape b dw1 hb
      subst hbeq
      refine ⟨?_, ?_, ?_⟩
      · rw [has_interface_set E a i _ hi hlen]
        simp [torn_down_slot]
      · intro j hj
        exact List.getElem?_set_ne (fun h => hj h.symm)
      · exact reuse_after_teardown E a i s dev dw1 hlen hi hrec
  · intro h4 hrum d0 d1 d2 d3 d4 dw h0 h1 h2 h3 hr4
    have hvac : ∀ j, 0 ≤ j → j < E.MAX_USERS →
        slot_vacant (List.replicate 4 (zeroed_slot : joypad_connection_t W)) j = true := by
      intro j _ hj
      exact slot_vacant_replicate 4 j (by omega)
    obtain ⟨b, dw1, hrun, hblen, hb, _, _⟩ :=
      connect_all_block E [d0, d1, d2, d3] (List.replicate 4 zeroed_slot) 0 dw
        (by simp [h4]) (by simp [h4]) (fun j hj => absurd hj (by omega)) hvac
        (by
          intro d hd
          simp only [List.mem_cons, List.mem_singleton, List.not_mem_nil, or_false] at hd
          rcases hd with h | h | h | h <;> subst h <;> assumption)
    obtain ⟨e, x, hmem, hs⟩ := hb 1 (by simp)
    obtain ⟨hshape, hruns⟩ :=
      pad_deinit_at_connected b 1 (bound_slot e.iface x) dw1 hs rfl
    obtain ⟨dw2, hdeinit⟩ := hruns (by
      intro d hd
      have hde : e.iface = d := by
        simpa [bound_slot] using hd
      rw [← hde]
      exact hrum e hmem)
    have h14 : 1 < E.MAX_USERS := by omega
    obtain ⟨p, e4, _, _, _, _, hconn, hp⟩ :=
      reuse_after_teardown E b 1 (bound_slot e.iface x) d4 dw2 hblen h14 hr4
    have hp1 : p = 1 := hp (by
      intro j hj
      exact table_bound_connected E b j (hb j (by simp; omega)))
    subst hp1
    have hclen : (b.set 1 (torn_down_slot (bound_slot e.iface x))).length = E.MAX_USERS := by
      simpa using hblen
    refine ⟨b, dw1, _, dw2, _, _, ?_, hdeinit, ?_, hconn, ?_, ?_, ?_, ?_⟩
    · rw [pad_connection_init_eq, hrun]
      rfl
    · rw [has_interface_set E b 1 _ h14 hblen]
      simp [torn_down_slot]
    · rw [has_interface_set E _ 1 _ h14 hclen]
      simp [bound_slot]
    · simp
    · simp
    · simp

/-- The capacity-4 scenario on the sample environment, whose drivers all provide
`set_rumble`: the four scenario devices connect at 0, 1, 2, 3; slot 1 is torn down; the
extra device connects at 1 and slots 0, 2, 3 are unchanged. -/
theorem disconnect_then_reuse_witness :
    ∃ (b : List (joypad_connection_t Nat)) (dw1 : driver_world Nat)
      (c : List (joypad_connection_t Nat)) (dw2 : driver_world Nat)
      (f : List (joypad_connection_t Nat)) (dw3 : driver_world Nat),
      connect_all sample_env scenario_devices (pad_connection_init true 4) sample_world =
        Except.ok ([0, 1, 2, 3], some b, dw1) ∧
      pad_deinit_at b 1 dw1 = Except.ok (c, dw2) ∧
      pad_connection_has_interface sample_env (some c) 1 = Except.ok false ∧
      pad_connection_pad_init sample_env (some c) scenario_extra.name scenario_extra.vid
          scenario_extra.pid scenario_extra.data scenario_extra.ptr dw2 =
        Except.ok (1, some f, dw3) ∧
      pad_connection_has_interface sample_env (some f) 1 = Except.ok true ∧
      f[0]? = b[0]? ∧ f[2]? = b[2]? ∧ f[3]? = b[3]? :=
  (disconnect_then_reuse sample_env).2 rfl
    (by
      intro e he
      simp only [pad_map, List.mem_cons, List.mem_singleton, List.not_mem_nil,
        or_false] at he
      rcases he with h | h | h <;> subst h <;> rfl)
    { name := some "pad A", vid := 1356, pid := 616, data := 11, ptr := 21 }
    { name := some "pad B", vid := 1406, pid := 816, data := 12, ptr := 22 }
    { name := some "pad C", vid := 1356, pid := 1476, data := 13, ptr := 23 }
    { name := some "pad D", vid := 1356, pid := 616, data := 14, ptr := 24 }
    scenario_extra sample_world
    ⟨_, rfl, _, rfl⟩ ⟨_, rfl, _, rfl⟩ ⟨_, rfl, _, rfl⟩ ⟨_, rfl, _, rfl⟩ ⟨_, rfl, _, rfl⟩

/-- C7 (failing input): in the four-slot environment whose Wii driver has no
`set_rumble` entry, a Wii pad connects at index 0 of a freshly constructed registry, so
slot 0 is connected; the teardown of that slot calls through the `NULL` function
pointer instead of returning, so the slot is never freed and the `connect` that should
reuse index 0 is never reached. -/
theorem disconnect_faults_before_reuse :
    pad_connection_pad_init norumble_env (pad_connection_init true 4)
        (some "Nintendo RVL-CNT-01") 1406 816 5 6 sample_world =
      Except.ok (0,
        some [bound_slot norumble_iface 6, zeroed_slot, zeroed_slot, zeroed_slot],
        { world := 1, calls := [driver_call.init norumble_iface 5 0 6] }) ∧
    slot_connected
      ([bound_slot norumble_iface 6, zeroed_slot, zeroed_slot, zeroed_slot] :
        List (joypad_connection_t Nat)) 0 = true ∧
    pad_deinit_at [bound_slot norumble_iface 6, zeroed_slot, zeroed_slot, zeroed_slot] 0
        { world := 1, calls := [driver_call.init norumble_iface 5 0 6] } =
      Except.error fault.null_call ∧
    run_ops norumble_env
        [ registry_op.connect
            { name := some "Nintendo RVL-CNT-01", vid := 1406, pid := 816,
              data := 5, ptr := 6 },
          registry_op.disconnect 0,
          registry_op.connect scenario_extra ]
        (List.replicate 4 zeroed_slot, sample_world) =
      Except.error fault.null_call :=
  ⟨rfl, rfl, rfl, rfl⟩

/-! ## Teardown -/

/-- C8 (counterexample): a connected slot bound to the sample driver (which provides
`set_rumble`) with instance pointer 7 is left by teardown with `data = 7`; it differs
from the slot created by `pad_connection_init`, whose data pointer is `NULL`. -/
theorem disconnect_keeps_data_counterexample :
    (pad_connection_init true 1 : registry Nat) = some [zeroed_slot] ∧
    (sample_iface 1).set_rumble.isSome = true ∧
    pad_connection_pad_deinit (some (bound_slot (sample_iface 1) 7)) 0 sample_world =
      Except.ok (some { connected := false, iface := none, data := 7 },
        teardown_world (sample_iface 1) (fun _ _ strength w => w + 100 + strength) 7
          sample_world) ∧
    ({ connected := false, iface := none, data := 7 } : joypad_connection_t Nat) ≠
      zeroed_slot := by
  refine ⟨rfl, rfl, rfl, ?_⟩
  intro h
  have hdata := congrArg joypad_connection_t.data h
  exact absurd hdata (by decide)

/-- C8 (amended): teardown of a connected slot whose driver provides `set_rumble`
returns and leaves the slot not connected and without a driver interface, with the data
pointer unchanged; the slot equals a slot created by `pad_connection_init` exactly when
its data pointer was already `NULL`. -/
theorem disconnect_clears_binding (s : joypad_connection_t W) (pad : Nat)
    (dw : driver_world W) (d : pad_connection_interface_t W)
    (f : ptr_t → retro_rumble_effect → Nat → W → W)
    (hc : s.connected = true) (hd : s.iface = some d) (hf : d.set_rumble = some f) :
    ∃ (t : joypad_connection_t W) (dw1 : driver_world W),
      pad_connection_pad_deinit (some s) pad dw = Except.ok (some t, dw1) ∧
      t.connected = false ∧ t.iface = none ∧ t.data = s.data ∧
      (t = zeroed_slot ↔ s.data = 0) := by
  refine ⟨torn_down_slot s, teardown_world d f s.data dw,
    pad_deinit_of_rumble s pad dw d f hc hd hf, rfl, rfl, rfl, ?_⟩
  constructor
  · intro h
    exact congrArg joypad_connection_t.data h
  · intro h
    simp only [torn_down_slot, zeroed_slot, h]

/-- The amended C8 statement on a slot bound to the sample driver. -/
theorem disconnect_clears_binding_witness :
    ∃ (t : joypad_connection_t Nat) (dw1 : driver_world Nat),
      pad_connection_pad_deinit (some (bound_slot (sample_iface 1) 7)) 0 sample_world =
        Except.ok (some t, dw1) ∧
      t.connected = false ∧ t.iface = none ∧ t.data = 7 ∧
      (t = zeroed_slot ↔ (7 : Nat) = 0) :=
  disconnect_clears_binding (bound_slot (sample_iface 1) 7) 0 sample_world (sample_iface 1)
    (fun _ _ strength w => w + 100 + strength) rfl rfl rfl

/-- C9 (failing input): teardown of a connected slot bound to a driver without a
`set_rumble` entry does not skip the rumble zeroing; it calls through the `NULL`
function pointer. -/
theorem disconnect_without_rumble_faults :
    norumble_iface.set_rumble = none ∧
    pad_connection_pad_deinit (some (bound_slot norumble_iface 7)) 0 sample_world =
      Except.error fault.null_call :=
  ⟨rfl, rfl⟩

/-- C10: teardown through a `NULL` slot pointer or of a slot that is not connected
returns, leaves the slot as it was and leaves the driver world and the log of driver
calls as they were, whatever the pad index argument is. -/
theorem disconnect_unconnected_noop (joyconn : Option (joypad_connection_t W)) (pad : Nat)
    (dw : driver_world W)
    (h : joyconn = none ∨ ∃ s, joyconn = some s ∧ s.connected = false) :
    pad_connection_pad_deinit joyconn pad dw = Except.ok (joyconn, dw) := by
  rcases h with h | ⟨s, h, hc⟩
  · subst h; rfl
  · subst h; exact pad_deinit_of_not_connected s pad dw hc

/-- C10 on an empty slot with an out-of-range pad index. -/
theorem disconnect_unconnected_noop_witness :
    pad_connection_pad_deinit (some (zeroed_slot : joypad_connection_t Nat)) 4294967295
        sample_world =
      Except.ok (some zeroed_slot, sample_world) :=
  disconnect_unconnected_noop (some zeroed_slot) 4294967295 sample_world
    (Or.inr ⟨zeroed_slot, rfl, rfl⟩)

/-! ## Forwarding of per-pad operations -/

/-- C11 (counterexample): a connected slot bound to the sample driver, which provides
`packet_handler`, but holding the `NULL` instance pointer: `pad_connection_packet`
invokes nothing. -/
theorem dispatch_packet_null_data_counterexample :
    (bound_slot (sample_iface 1) 0).connected = true ∧
    (sample_iface 1).packet_handler.isSome = true ∧
    pad_connection_packet (some (bound_slot (sample_iface 1) 0)) 0 [1, 2, 3] 3 sample_world =
      sample_world :=
  ⟨rfl, rfl, rfl⟩

/-- C11 (amended): `pad_connection_packet` invokes nothing and changes nothing on a
`NULL` slot pointer and on a slot that is not connected.  On a connected slot with a
driver interface, a non-`NULL` instance pointer and a `packet_handler` entry, the
handler is invoked exactly once with the slot's instance pointer and exactly the given
bytes and length.  On a connected slot without a driver interface, with a `NULL`
instance pointer or without a `packet_handler` entry, nothing is invoked.  The slot
array is never written. -/
theorem dispatch_packet_forwards (E : joypad_env W)
    (joyconn : Option (joypad_connection_t W)) (pad : Nat)
    (bytes : List Nat) (length : Nat) (dw : driver_world W) :
    (joyconn = none → pad_connection_packet joyconn pad bytes length dw = dw) ∧
    (∀ s, joyconn = some s → s.connected = false →
      pad_connection_packet joyconn pad bytes length dw = dw) ∧
    (∀ s d f, joyconn = some s → s.connected = true → s.iface = some d → s.data ≠ 0 →
      d.packet_handler = some f →
      pad_connection_packet joyconn pad bytes length dw =
        { world := f s.data bytes length dw.world,
          calls := dw.calls ++ [driver_call.packet_handler d s.data bytes length] }) ∧
    (∀ s, joyconn = some s → s.connected = true →
      (s.iface = none ∨ s.data = 0 ∨ ∃ d, s.iface = some d ∧ d.packet_handler = none) →
      pad_connection_packet joyconn pad bytes length dw = dw) ∧
    (∀ (a : List (joypad_connection_t W)) (i : Nat)
      (st : List (joypad_connection_t W) × driver_world W),
      apply_op E (registry_op.dispatch_packet i bytes length) (a, dw) = Except.ok st →
      st.1 = a) := by
  refine ⟨?_, ?_, ?_, ?_, ?_⟩
  · intro h
    subst h
    rfl
  · intro s h hc
    subst h
    simp [pad_connection_packet, hc]
  · intro s d f h hc hd hdata hf
    subst h
    simp [pad_connection_packet, hc, hd, hdata, hf, call_packet_handler]
  · intro s h hc hcase
    subst h
    rcases hcase with hd | hdata | ⟨d, hd, hf⟩
    · simp [pad_connection_packet, hc, hd]
    · cases hi : s.iface with
      | none => simp [pad_connection_packet, hc, hi]
      | some d => simp [pad_connection_packet, hc, hi, hdata]
    · simp [pad_connection_packet, hc, hd, hf]
  · intro a i st h
    simp only [apply_op] at h
    cases hs : a[i]? with
    | none => rw [hs] at h; cases h
    | some s =>
      rw [hs] at h
      simp only [Except.ok.injEq] at h
      rw [← h]

/-- The forwarding case of C11 on a slot bound to the sample driver. -/
theorem dispatch_packet_forwards_witness :
    pad_connection_packet (some (bound_slot (sample_iface 1) 7)) 0 [1, 2, 3] 3 sample_world =
      { world := 3,
        calls := [driver_call.packet_handler (sample_iface 1) 7 [1, 2, 3] 3] } :=
  (dispatch_packet_forwards sample_env (some (bound_slot (sample_iface 1) 7)) 0 [1, 2, 3] 3
    sample_world).2.2.1 (bound_slot (sample_iface 1) 7) (sample_iface 1)
    (fun _ _ length w => w + length) rfl rfl rfl (by decide) rfl

/-- C12: on a slot without a driver interface `pad_connection_get_buttons` and
`pad_connection_get_axis` return 0 and invoke nothing; on a slot with a driver interface
they return exactly what the driver's `get_buttons(data)` and `get_axis(data, i)`
return, after that one call, where `i` is the axis index argument and not the pad
index. -/
theorem read_buttons_axis_forward (s : joypad_connection_t W) (pad idx i : Nat)
    (dw : driver_world W) :
    (s.iface = none →
      pad_connection_get_buttons (some s) pad dw = Except.ok (0, dw) ∧
      pad_connection_get_axis (some s) idx i dw = Except.ok (0, dw)) ∧
    (∀ d, s.iface = some d →
      pad_connection_get_buttons (some s) pad dw =
        Except.ok ((d.get_buttons s.data dw.world).1,
          { world := (d.get_buttons s.data dw.world).2,
            calls := dw.calls ++ [driver_call.get_buttons d s.data] }) ∧
      pad_connection_get_axis (some s) idx i dw =
        Except.ok ((d.get_axis s.data i dw.world).1,
          { world := (d.get_axis s.data i dw.world).2,
            calls := dw.calls ++ [driver_call.get_axis d s.data i] })) := by
  refine ⟨?_, ?_⟩
  · intro h
    simp [pad_connection_get_buttons, pad_connection_get_axis, h]
  · intro d h
    simp [pad_connection_get_buttons, pad_connection_get_axis, h, call_get_buttons,
      call_get_axis]

/-- C12 on a slot bound to the sample driver: pad index 3, axis index 2. -/
theorem read_buttons_axis_forward_witness :
    pad_connection_get_buttons (some (bound_slot (sample_iface 1) 7)) 3 sample_world =
      Except.ok (7, { world := 0, calls := [driver_call.get_buttons (sample_iface 1) 7] }) ∧
    pad_connection_get_axis (some (bound_slot (sample_iface 1) 7)) 3 2 sample_world =
      Except.ok (9, { world := 0, calls := [driver_call.get_axis (sample_iface 1) 7 2] }) :=
  (read_buttons_axis_forward (bound_slot (sample_iface 1) 7) 3 3 2 sample_world).2
    (sample_iface 1) rfl

/-- C13: on a slot array of `MAX_USERS` slots `pad_connection_has_interface` always
returns a value; it returns true exactly when the index is below `MAX_USERS` and the
slot at that index is connected and has a driver interface; it returns false for every
index from `MAX_USERS` on, and for every index on a `NULL` array. -/
theorem has_interface_iff (E : joypad_env W) (a : List (joypad_connection_t W)) (pad : Nat)
    (hlen : a.length = E.MAX_USERS) :
    pad_connection_has_interface E (none : registry W) pad = Except.ok false ∧
    (∃ b, pad_connection_has_interface E (some a) pad = Except.ok b) ∧
    (pad_connection_has_interface E (some a) pad = Except.ok true ↔
      pad < E.MAX_USERS ∧
        ∃ s, a[pad]? = some s ∧ s.connected = true ∧ s.iface.isSome = true) ∧
    (E.MAX_USERS ≤ pad → pad_connection_has_interface E (some a) pad = Except.ok false) := by
  refine ⟨rfl, ?_, ?_, ?_⟩
  · unfold pad_connection_has_interface
    by_cases hp : pad < E.MAX_USERS
    · have hget : a[pad]? = some a[pad] := List.getElem?_eq_getElem (by omega)
      simp [hp, hget]
    · simp [hp]
  · unfold pad_connection_has_interface
    by_cases hp : pad < E.MAX_USERS
    · have hlt : pad < a.length := by omega
      have hget : a[pad]? = some a[pad] := List.getElem?_eq_getElem hlt
      simp [hp, hget]
    · simp [hp]
  · intro hp
    have hnot : ¬ pad < E.MAX_USERS := by omega
    simp [pad_connection_has_interface, hnot]

/-- C13 on the sample array: slot 2 is bound, and index 4 is out of range. -/
theorem has_interface_iff_witness :
    pad_connection_has_interface sample_env (some sample_slots) 2 = Except.ok true ∧
    pad_connection_has_interface sample_env (some sample_slots) 4 = Except.ok false :=
  ⟨(has_interface_iff sample_env sample_slots 2 (by decide)).2.2.1.mpr
      ⟨by decide, bound_slot (sample_iface 2) 9, rfl, rfl, rfl⟩,
   (has_interface_iff sample_env sample_slots 4 (by decide)).2.2.2 (by decide)⟩

/-- C14: `pad_connection_rumble` returns false and invokes nothing when the slot is not
connected, has no driver interface, or its driver has no `set_rumble` entry; otherwise
it returns true after exactly one call of the driver's `set_rumble` with the slot's
instance pointer and the given effect and strength.  The slot array is never written. -/
theorem rumble_forwards (E : joypad_env W) (s : joypad_connection_t W) (pad : Nat)
    (effect : retro_rumble_effect) (strength : Nat) (dw : driver_world W) :
    (s.connected = false →
      pad_connection_rumble (some s) pad effect strength dw = Except.ok (false, dw)) ∧
    (s.iface = none →
      pad_connection_rumble (some s) pad effect strength dw = Except.ok (false, dw)) ∧
    (∀ d, s.iface = some d → d.set_rumble = none →
      pad_connection_rumble (some s) pad effect strength dw = Except.ok (false, dw)) ∧
    (∀ d f, s.connected = true → s.iface = some d → d.set_rumble = some f →
      pad_connection_rumble (some s) pad effect strength dw =
        Except.ok (true,
          { world := f s.data effect strength dw.world,
            calls := dw.calls ++ [driver_call.set_rumble d s.data effect strength] })) ∧
    (∀ (a : List (joypad_connection_t W)) (i : Nat)
      (st : List (joypad_connection_t W) × driver_world W),
      apply_op E (registry_op.set_rumble i effect strength) (a, dw) = Except.ok st →
      st.1 = a) := by
  refine ⟨?_, ?_, ?_, ?_, ?_⟩
  · intro hc
    simp [pad_connection_rumble, hc]
  · intro hd
    cases hc : s.connected <;> simp [pad_connection_rumble, hc, hd]
  · intro d hd hf
    cases hc : s.connected <;> simp [pad_connection_rumble, hc, hd, hf]
  · intro d f hc hd hf
    simp [pad_connection_rumble, hc, hd, hf]
  · intro a i st h
    simp only [apply_op] at h
    cases hs : a[i]? with
    | none => rw [hs] at h; cases h
    | some t =>
      rw [hs] at h
      dsimp only at h
      cases hr : pad_connection_rumble (some t) i effect strength dw with
      | error f => rw [hr] at h; cases h
      | ok r =>
        rw [hr] at h
        simp only [Except.ok.injEq] at h
        rw [← h]

/-- The forwarding case of C14 on a slot bound to the sample driver. -/
theorem rumble_forwards_witness :
    pad_connection_rumble (some (bound_slot (sample_iface 1) 7)) 0
        retro_rumble_effect.RETRO_RUMBLE_WEAK 5 sample_world =
      Except.ok (true,
        { world := 105,
          calls := [driver_call.set_rumble (sample_iface 1) 7
            retro_rumble_effect.RETRO_RUMBLE_WEAK 5] }) :=
  (rumble_forwards sample_env (bound_slot (sample_iface 1) 7) 0
    retro_rumble_effect.RETRO_RUMBLE_WEAK 5 sample_world).2.2.2.1 (sample_iface 1)
    (fun _ _ strength w => w + 100 + strength) rfl rfl rfl

/-! ## Lemmas on the outcome of `connect` -/

/-- A value returned by the vacant-slot scan is `-1` or the index of a vacant slot. -/
theorem find_vacant_pad_loop_ok (a : List (joypad_connection_t W)) :
    ∀ (n i : Nat) (r : Int), find_vacant_pad_loop a n i = Except.ok r →
      r = -1 ∨ ∃ p : Nat, r = (p : Int) ∧ slot_vacant a p = true := by
  intro n
  induction n with
  | zero =>
    intro i r h
    left
    simp only [find_vacant_pad_loop, Except.ok.injEq] at h
    exact h.symm
  | succ n ih =>
    intro i r h
    unfold find_vacant_pad_loop at h
    cases hs : a[i]? with
    | none => rw [hs] at h; cases h
    | some conn =>
      rw [hs] at h
      dsimp only at h
      cases hc : conn.connected with
      | false =>
        simp only [hc, Bool.not_false, if_true, Except.ok.injEq] at h
        right
        exact ⟨i, h.symm, by simp [slot_vacant, hs, hc]⟩
      | true =>
        simp only [hc, Bool.not_true, Bool.false_eq_true, if_false] at h
        exact ih (i + 1) r h

/-- Every result of `connect`: either `-1` with nothing changed, or the index `p`
returned by the vacant-slot scan, with slot `p` bound to the first matching row after
one call of that row's `init`. -/
theorem pad_init_result (E : joypad_env W) (joyconn : registry W)
    (name : Option String) (vid pid : Nat) (data ptr : ptr_t) (dw : driver_world W)
    (r : Int) (jc : registry W) (dw1 : driver_world W)
    (h : pad_connection_pad_init E joyconn name vid pid data ptr dw =
      Except.ok (r, jc, dw1)) :
    (r = -1 ∧ jc = joyconn ∧ dw1 = dw) ∨
    (∃ (a : List (joypad_connection_t W)) (p : Nat) (nm : String) (e : pad_map_entry W),
      joyconn = some a ∧ name = some nm ∧ r = (p : Int) ∧
      pad_connection_find_vacant_pad E joyconn = Except.ok (p : Int) ∧
      slot_vacant a p = true ∧ first_match E nm vid pid = some e ∧
      jc = some (a.set p (bound_slot e.iface (call_init e.iface data p ptr dw).1)) ∧
      dw1 = (call_init e.iface data p ptr dw).2) := by
  cases joyconn with
  | none =>
    left
    have hres : pad_connection_pad_init E (none : registry W) name vid pid data ptr dw =
        Except.ok (-1, none, dw) := rfl
    rw [hres] at h
    simp only [Except.ok.injEq, Prod.mk.injEq] at h
    exact ⟨h.1.symm, h.2.1.symm, h.2.2.symm⟩
  | some a =>
    cases hfind : pad_connection_find_vacant_pad E (some a) with
    | error f =>
      unfold pad_connection_pad_init at h
      rw [hfind] at h
      cases h
    | ok pad =>
      have hloop : find_vacant_pad_loop a E.MAX_USERS 0 = Except.ok pad := hfind
      rcases find_vacant_pad_loop_ok a E.MAX_USERS 0 pad hloop with hneg | ⟨p, hp, hv⟩
      · left
        subst hneg
        rw [pad_init_of_no_vacant E (some a) name vid pid data ptr dw hfind] at h
        simp only [Except.ok.injEq, Prod.mk.injEq] at h
        exact ⟨h.1.symm, h.2.1.symm, h.2.2.symm⟩
      · subst hp
        rw [pad_init_of_vacant E a p name vid pid data ptr dw hfind hv] at h
        cases name with
        | none =>
          left
          simp only [Except.ok.injEq, Prod.mk.injEq] at h
          exact ⟨h.1.symm, h.2.1.symm, h.2.2.symm⟩
        | some nm =>
          dsimp only at h
          cases hm : first_match E nm vid pid with
          | none =>
            left
            rw [hm] at h
            simp only [Except.ok.injEq, Prod.mk.injEq] at h
            exact ⟨h.1.symm, h.2.1.symm, h.2.2.symm⟩
          | some e =>
            right
            rw [hm] at h
            simp only [Except.ok.injEq, Prod.mk.injEq] at h
            exact ⟨a, p, nm, e, rfl, rfl, h.1.symm, rfl, hv, hm, h.2.1.symm, h.2.2.symm⟩

/-! ## Order of the teardown calls, and the outcome of `connect` -/

/-- The stepwise teardown is the teardown: dropping the events of
`pad_connection_pad_deinit_steps` gives the result of `pad_connection_pad_deinit`, on
every input. -/
theorem pad_deinit_steps_agree (joyconn : Option (joypad_connection_t W)) (pad : Nat)
    (dw : driver_world W) :
    (match pad_connection_pad_deinit_steps joyconn pad dw with
      | Except.error f => Except.error f
      | Except.ok (t, dw1, _) => Except.ok (t, dw1)) =
      pad_connection_pad_deinit joyconn pad dw := by
  cases joyconn with
  | none => rfl
  | some s =>
    cases hc : s.connected with
    | false => simp [pad_connection_pad_deinit_steps, pad_connection_pad_deinit, hc]
    | true =>
      cases hd : s.iface with
      | none => simp [pad_connection_pad_deinit_steps, pad_connection_pad_deinit, hc, hd]
      | some d =>
        cases hf : d.set_rumble with
        | none =>
          simp [pad_connection_pad_deinit_steps, pad_connection_pad_deinit, hc, hd,
            call_set_rumble, hf]
        | some f =>
          cases hg : d.deinit with
          | none =>
            simp [pad_connection_pad_deinit_steps, pad_connection_pad_deinit, hc, hd,
              call_set_rumble, hf, hg]
          | some g =>
            simp [pad_connection_pad_deinit_steps, pad_connection_pad_deinit, hc, hd,
              call_set_rumble, hf, hg]

/-- The events of the teardown of a connected slot whose driver has a `set_rumble`
entry. -/
theorem pad_deinit_steps_of_rumble (s : joypad_connection_t W) (pad : Nat)
    (dw : driver_world W) (d : pad_connection_interface_t W)
    (f : ptr_t → retro_rumble_effect → Nat → W → W)
    (hc : s.connected = true) (hd : s.iface = some d) (hf : d.set_rumble = some f) :
    pad_connection_pad_deinit_steps (some s) pad dw =
      Except.ok (some (torn_down_slot s), teardown_world d f s.data dw,
        [ slot_event.driver
            (driver_call.set_rumble d s.data retro_rumble_effect.RETRO_RUMBLE_STRONG 0) s,
          slot_event.driver
            (driver_call.set_rumble d s.data retro_rumble_effect.RETRO_RUMBLE_WEAK 0) s ] ++
        (match d.deinit with
          | some _ => [slot_event.driver (driver_call.deinit d s.data) s]
          | none => []) ++
        [ slot_event.store { s with iface := none },
          slot_event.store { connected := false, iface := none, data := s.data } ]) := by
  unfold pad_connection_pad_deinit_steps
  simp only [hc, hd, call_set_rumble, hf, teardown_world, torn_down_slot]
  cases d.deinit with
  | none => rfl
  | some g => rfl

/-- C17: teardown of a connected slot whose driver provides `set_rumble` returns and
adds to the log of driver calls exactly `set_rumble(data, STRONG, 0)`, then
`set_rumble(data, WEAK, 0)`, then `deinit(data)` when and only when the driver has a
`deinit` entry, all on the slot's own instance pointer; the driver world is the one
these calls produce in this order, and the slot handed back is the torn-down slot.  In
program order the events of the teardown are these driver calls, each made while the
slot is still as it was on entry (connected, driver interface present), and only then
the two stores that clear the slot: `iface = NULL`, then `connected = false`. -/
theorem disconnect_call_order (s : joypad_connection_t W) (pad : Nat) (dw : driver_world W)
    (d : pad_connection_interface_t W) (f : ptr_t → retro_rumble_effect → Nat → W → W)
    (hc : s.connected = true) (hd : s.iface = some d) (hf : d.set_rumble = some f) :
    ∃ (dw1 : driver_world W) (events : List (slot_event W)),
      pad_connection_pad_deinit (some s) pad dw =
        Except.ok (some { connected := false, iface := none, data := s.data }, dw1) ∧
      dw1.calls = dw.calls ++
        ([ driver_call.set_rumble d s.data retro_rumble_effect.RETRO_RUMBLE_STRONG 0,
           driver_call.set_rumble d s.data retro_rumble_effect.RETRO_RUMBLE_WEAK 0 ] ++
          match d.deinit with
          | some _ => [driver_call.deinit d s.data]
          | none => []) ∧
      dw1.world =
        (match d.deinit with
        | some g =>
          g s.data (f s.data retro_rumble_effect.RETRO_RUMBLE_WEAK 0
            (f s.data retro_rumble_effect.RETRO_RUMBLE_STRONG 0 dw.world))
        | none =>
          f s.data retro_rumble_effect.RETRO_RUMBLE_WEAK 0
            (f s.data retro_rumble_effect.RETRO_RUMBLE_STRONG 0 dw.world)) ∧
      pad_connection_pad_deinit_steps (some s) pad dw =
        Except.ok (some { connected := false, iface := none, data := s.data }, dw1,
          events) ∧
      events =
        [ slot_event.driver
            (driver_call.set_rumble d s.data retro_rumble_effect.RETRO_RUMBLE_STRONG 0) s,
          slot_event.driver
            (driver_call.set_rumble d s.data retro_rumble_effect.RETRO_RUMBLE_WEAK 0) s ] ++
        (match d.deinit with
          | some _ => [slot_event.driver (driver_call.deinit d s.data) s]
          | none => []) ++
        [ slot_event.store { connected := true, iface := none, data := s.data },
          slot_event.store { connected := false, iface := none, data := s.data } ] ∧
      (∀ (c : driver_call W) (t : joypad_connection_t W),
        slot_event.driver c t ∈ events →
          t = s ∧ t.connected = true ∧ t.iface = some d) := by
  have hs1 : ({ s with iface := none } : joypad_connection_t W) =
      { connected := true, iface := none, data := s.data } := by
    rw [← hc]
  refine ⟨teardown_world d f s.data dw, _, pad_deinit_of_rumble s pad dw d f hc hd hf,
    ?_, ?_, pad_deinit_steps_of_rumble s pad dw d f hc hd hf, ?_, ?_⟩
  · unfold teardown_world
    cases d.deinit with
    | none => simp
    | some g => simp [call_deinit]
  · unfold teardown_world
    cases d.deinit with
    | none => rfl
    | some g => rfl
  · rw [hs1]
  · intro c t hmem
    have hts : t = s := by
      cases hg : d.deinit with
      | none =>
        rw [hg] at hmem
        simp only [List.append_nil, List.cons_append, List.nil_append, List.mem_cons,
          slot_event.driver.injEq, List.mem_singleton, List.not_mem_nil, or_false,
          reduceCtorEq] at hmem
        rcases hmem with h | h
        · exact h.2
        · exact h.2
      | some g =>
        rw [hg] at hmem
        simp only [List.cons_append, List.nil_append, List.mem_cons,
          slot_event.driver.injEq, List.mem_singleton, List.not_mem_nil, or_false,
          reduceCtorEq] at hmem
        rcases hmem with h | h | h
        · exact h.2
        · exact h.2
        · exact h.2
    rw [hts]
    exact ⟨rfl, hc, hd⟩

/-- C17 on a slot bound to the sample driver, which has a `deinit` entry. -/
theorem disconnect_call_order_witness :
    ∃ (dw1 : driver_world Nat) (events : List (slot_event Nat)),
      pad_connection_pad_deinit (some (bound_slot (sample_iface 1) 7)) 0 sample_world =
        Except.ok (some { connected := false, iface := none, data := 7 }, dw1) ∧
      dw1.calls =
        [ driver_call.set_rumble (sample_iface 1) 7 retro_rumble_effect.RETRO_RUMBLE_STRONG 0,
          driver_call.set_rumble (sample_iface 1) 7 retro_rumble_effect.RETRO_RUMBLE_WEAK 0,
          driver_call.deinit (sample_iface 1) 7 ] ∧
      dw1.world = 210 ∧
      pad_connection_pad_deinit_steps (some (bound_slot (sample_iface 1) 7)) 0 sample_world =
        Except.ok (some { connected := false, iface := none, data := 7 }, dw1, events) ∧
      events =
        [ slot_event.driver
            (driver_call.set_rumble (sample_iface 1) 7
              retro_rumble_effect.RETRO_RUMBLE_STRONG 0) (bound_slot (sample_iface 1) 7),
          slot_event.driver
            (driver_call.set_rumble (sample_iface 1) 7
              retro_rumble_effect.RETRO_RUMBLE_WEAK 0) (bound_slot (sample_iface 1) 7),
          slot_event.driver (driver_call.deinit (sample_iface 1) 7)
            (bound_slot (sample_iface 1) 7),
          slot_event.store { connected := true, iface := none, data := 7 },
          slot_event.store { connected := false, iface := none, data := 7 } ] ∧
      (∀ (c : driver_call Nat) (t : joypad_connection_t Nat),
        slot_event.driver c t ∈ events →
          t = bound_slot (sample_iface 1) 7 ∧ t.connected = true ∧
            t.iface = some (sample_iface 1)) :=
  disconnect_call_order (bound_slot (sample_iface 1) 7) 0 sample_world (sample_iface 1)
    (fun _ _ strength w => w + 100 + strength) rfl rfl rfl

/-- C18: when `connect` returns a value `r` other than `-1`, then `r` is the index `p`
that the vacant-slot scan returns on the array before the call, the name is present and
the first matching row `e` of the table exists, the only driver call made is
`e.init(data, p, ptr)`, slot `p` afterwards is connected, holds `e`'s interface and the
pointer returned by that `init`, and every other slot is unchanged. -/
theorem connect_success_frame (E : joypad_env W) (joyconn : registry W)
    (name : Option String) (vid pid : Nat) (data ptr : ptr_t) (dw : driver_world W)
    (r : Int) (jc : registry W) (dw1 : driver_world W)
    (h : pad_connection_pad_init E joyconn name vid pid data ptr dw =
      Except.ok (r, jc, dw1))
    (hr : r ≠ -1) :
    ∃ (a b : List (joypad_connection_t W)) (p : Nat) (nm : String) (e : pad_map_entry W),
      joyconn = some a ∧ jc = some b ∧ name = some nm ∧ r = (p : Int) ∧
      pad_connection_find_vacant_pad E joyconn = Except.ok (p : Int) ∧
      first_match E nm vid pid = some e ∧
      dw1.world = (e.iface.init data p ptr dw.world).2 ∧
      dw1.calls = dw.calls ++ [driver_call.init e.iface data p ptr] ∧
      b[p]? = some { connected := true, iface := some e.iface,
                     data := (e.iface.init data p ptr dw.world).1 } ∧
      b.length = a.length ∧
      ∀ j, j ≠ p → b[j]? = a[j]? := by
  rcases pad_init_result E joyconn name vid pid data ptr dw r jc dw1 h with
    ⟨h1, _, _⟩ | ⟨a, p, nm, e, ha, hn, hrp, hfind, hv, hm, hjc, hdw⟩
  · exact absurd h1 hr
  · obtain ⟨t, ht, _⟩ := (slot_vacant_iff a p).mp hv
    have hpa : p < a.length := by
      obtain ⟨hlt, _⟩ := List.getElem?_eq_some.mp ht
      exact hlt
    refine ⟨a, _, p, nm, e, ha, hjc, hn, hrp, hfind, hm, ?_, ?_, ?_, ?_, ?_⟩
    · rw [hdw]; rfl
    · rw [hdw]; rfl
    · rw [List.getElem?_set_self hpa]; rfl
    · simp
    · intro j hj
      exact List.getElem?_set_ne (fun hpj => hj hpj.symm)

/-- C18 on the sample array: "Wireless Controller" is bound at the vacant index 1. -/
theorem connect_success_frame_witness :
    ∃ (a b : List (joypad_connection_t Nat)) (p : Nat) (nm : String)
      (e : pad_map_entry Nat),
      some sample_slots = some a ∧
      some [ bound_slot (sample_iface 3) 7, bound_slot (sample_iface 2) 8,
             bound_slot (sample_iface 2) 9, zeroed_slot ] = some b ∧
      some "Wireless Controller" = some nm ∧ (1 : Int) = (p : Int) ∧
      pad_connection_find_vacant_pad sample_env (some sample_slots) = Except.ok (p : Int) ∧
      first_match sample_env nm 0 0 = some e ∧
      (1 : Nat) = (e.iface.init 5 p 6 sample_world.world).2 ∧
      [driver_call.init (sample_iface 2) 5 1 6] =
        sample_world.calls ++ [driver_call.init e.iface 5 p 6] ∧
      b[p]? = some { connected := true, iface := some e.iface,
                     data := (e.iface.init 5 p 6 sample_world.world).1 } ∧
      b.length = a.length ∧
      ∀ j, j ≠ p → b[j]? = a[j]? :=
  connect_success_frame sample_env (some sample_slots) (some "Wireless Controller") 0 0 5 6
    sample_world 1
    (some [ bound_slot (sample_iface 3) 7, bound_slot (sample_iface 2) 8,
            bound_slot (sample_iface 2) 9, zeroed_slot ])
    { world := 1, calls := [driver_call.init (sample_iface 2) 5 1 6] } rfl (by decide)

/-- C19: on a slot array of `MAX_USERS` slots `connect` always returns.  It returns `-1`
exactly when every slot is connected, or the name is `NULL`, or no row of the table
matches the named device (a test on the name and the id pair only); in every other case
it returns the least vacant index and leaves that slot connected, whatever the driver's
`init` returned, a `NULL` instance included.  On a `NULL` array it returns `-1`. -/
theorem connect_outcome_ignores_init (E : joypad_env W) (a : List (joypad_connection_t W))
    (name : Option String) (vid pid : Nat) (data ptr : ptr_t) (dw : driver_world W)
    (hlen : a.length = E.MAX_USERS) :
    pad_connection_pad_init E (none : registry W) name vid pid data ptr dw =
      Except.ok (-1, none, dw) ∧
    ∃ (r : Int) (b : List (joypad_connection_t W)) (dw1 : driver_world W),
      pad_connection_pad_init E (some a) name vid pid data ptr dw =
        Except.ok (r, some b, dw1) ∧
      (r = -1 ↔
        ((∀ i, i < E.MAX_USERS → slot_connected a i = true) ∨ name = none ∨
          ∃ nm, name = some nm ∧
            ∀ row, row ∈ pad_map E → ¬ descriptor_matches nm vid pid row)) ∧
      (r ≠ -1 →
        ∃ (p : Nat) (e : pad_map_entry W), r = (p : Int) ∧ p < E.MAX_USERS ∧
          slot_vacant a p = true ∧ (∀ j, j < p → slot_connected a j = true) ∧
          e ∈ pad_map E ∧
          b = a.set p (bound_slot e.iface (e.iface.init data p ptr dw.world).1) ∧
          slot_connected b p = true ∧
          ((e.iface.init data p ptr dw.world).1 = 0 → b[p]? = some (bound_slot e.iface 0))) := by
  refine ⟨rfl, ?_⟩
  rcases find_vacant_pad_loop_cases a E.MAX_USERS 0 (by omega) with
    ⟨h1, hfull⟩ | ⟨p, h1, _, hplt, hv, hbelow⟩
  · refine ⟨-1, a, dw, pad_init_of_no_vacant E (some a) name vid pid data ptr dw h1, ?_, ?_⟩
    · exact ⟨fun _ => Or.inl (fun i hi => hfull i (by omega) (by omega)), fun _ => rfl⟩
    · intro h
      exact absurd rfl h
  · have hnotfull : ¬ ∀ i, i < E.MAX_USERS → slot_connected a i = true := by
      intro hall
      have hc := hall p (by omega)
      rw [slot_vacant_not_connected a p hv] at hc
      exact absurd hc (by decide)
    have hbase := pad_init_of_vacant E a p name vid pid data ptr dw h1 hv
    cases name with
    | none =>
      refine ⟨-1, a, dw, hbase, ?_, ?_⟩
      · exact ⟨fun _ => Or.inr (Or.inl rfl), fun _ => rfl⟩
      · intro h
        exact absurd rfl h
    | some nm =>
      dsimp only at hbase
      cases hm : first_match E nm vid pid with
      | none =>
        rw [hm] at hbase
        have hno : ∀ row, row ∈ pad_map E → ¬ descriptor_matches nm vid pid row := by
          unfold first_match at hm
          rw [List.find?_eq_none] at hm
          intro row hrow
          simpa using hm row hrow
        refine ⟨-1, a, dw, hbase, ?_, ?_⟩
        · exact ⟨fun _ => Or.inr (Or.inr ⟨nm, rfl, hno⟩), fun _ => rfl⟩
        · intro h
          exact absurd rfl h
      | some e =>
        rw [hm] at hbase
        have hmem : e ∈ pad_map E := List.mem_of_find?_eq_some hm
        have hmatch : descriptor_matches nm vid pid e := by
          have := List.find?_some hm
          simpa using this
        have hpa : p < a.length := by omega
        refine ⟨(p : Int), _, _, hbase, ?_, ?_⟩
        · constructor
          · intro h
            omega
          · rintro (hall | hnone | ⟨nm1, hnm1, hno⟩)
            · exact absurd hall hnotfull
            · cases hnone
            · have hnm : nm = nm1 := by
                injection hnm1
              subst hnm
              exact absurd hmatch (hno e hmem)
        · intro _
          refine ⟨p, e, rfl, by omega, hv, fun j hj => hbelow j (by omega) hj, hmem, rfl,
            ?_, ?_⟩
          · rw [slot_connected_set a p p _ hpa]
            simp [bound_slot]
          · intro hnull
            rw [List.getElem?_set_self hpa]
            simp only [call_init, hnull]

/-- C19 on the sample array with the driver whose `init` returns `NULL`: the device is
bound at index 1 all the same. -/
theorem connect_outcome_ignores_init_witness :
    ∃ (r : Int) (b : List (joypad_connection_t Nat)) (dw1 : driver_world Nat),
      pad_connection_pad_init null_init_env (some sample_slots)
          (some "Wireless Controller") 0 0 5 6 sample_world =
        Except.ok (r, some b, dw1) ∧
      (r = -1 ↔
        ((∀ i, i < null_init_env.MAX_USERS → slot_connected sample_slots i = true) ∨
          some "Wireless Controller" = none ∨
          ∃ nm, some "Wireless Controller" = some nm ∧
            ∀ row, row ∈ pad_map null_init_env → ¬ descriptor_matches nm 0 0 row)) ∧
      (r ≠ -1 →
        ∃ (p : Nat) (e : pad_map_entry Nat), r = (p : Int) ∧ p < null_init_env.MAX_USERS ∧
          slot_vacant sample_slots p = true ∧
          (∀ j, j < p → slot_connected sample_slots j = true) ∧
          e ∈ pad_map null_init_env ∧
          b = sample_slots.set p
            (bound_slot e.iface (e.iface.init 5 p 6 sample_world.world).1) ∧
          slot_connected b p = true ∧
          ((e.iface.init 5 p 6 sample_world.world).1 = 0 →
            b[p]? = some (bound_slot e.iface 0))) :=
  (connect_outcome_ignores_init null_init_env sample_slots (some "Wireless Controller")
    0 0 5 6 sample_world (by decide)).2

/-! ## Lemmas on `pad_connection_destroy` -/

/-- Teardown of slot `i` of the array, when it returns: slot `i` exists and either was
not connected and nothing changed, or was connected and is now torn down. -/
theorem pad_deinit_at_cases (a : List (joypad_connection_t W)) (i : Nat)
    (dw : driver_world W) (b : List (joypad_connection_t W)) (dw1 : driver_world W)
    (h : pad_deinit_at a i dw = Except.ok (b, dw1)) :
    ∃ s, a[i]? = some s ∧
      ((s.connected = false ∧ b = a ∧ dw1 = dw) ∨
       (s.connected = true ∧ b = a.set i (torn_down_slot s))) := by
  cases hs : a[i]? with
  | none =>
    unfold pad_deinit_at at h
    rw [hs] at h
    cases h
  | some s =>
    refine ⟨s, rfl, ?_⟩
    cases hc : s.connected with
    | false =>
      left
      unfold pad_deinit_at at h
      rw [hs] at h
      dsimp only at h
      rw [pad_deinit_of_not_connected s i dw hc] at h
      simp only [Except.ok.injEq, Prod.mk.injEq] at h
      rw [set_getElem?_same a i s hs] at h
      exact ⟨rfl, h.1.symm, h.2.symm⟩
    | true =>
      right
      exact ⟨rfl, (pad_deinit_at_connected a i s dw hs hc).1 b dw1 h⟩

/-- Teardown of a vacant slot of the array changes nothing. -/
theorem pad_deinit_at_vacant (a : List (joypad_connection_t W)) (i : Nat)
    (dw : driver_world W) (hv : slot_vacant a i = true) :
    pad_deinit_at a i dw = Except.ok (a, dw) := by
  obtain ⟨s, hs, hc⟩ := (slot_vacant_iff a i).mp hv
  unfold pad_deinit_at
  rw [hs]
  dsimp only
  rw [pad_deinit_of_not_connected s i dw hc]
  dsimp only
  rw [set_getElem?_same a i s hs]

/-- Teardown of slot `i` of the array returns when the slot does not meet a missing
`set_rumble` entry; the slot is then torn down if it was connected. -/
theorem pad_deinit_at_run (a : List (joypad_connection_t W)) (i : Nat)
    (s : joypad_connection_t W) (dw : driver_world W)
    (hs : a[i]? = some s) (hr : rumble_provided s) :
    ∃ dw1, pad_deinit_at a i dw = Except.ok (a.set i (teardown_if_connected s), dw1) := by
  cases hc : s.connected with
  | false =>
    have hv : slot_vacant a i = true := by simp [slot_vacant, hs, hc]
    refine ⟨dw, ?_⟩
    rw [pad_deinit_at_vacant a i dw hv]
    simp only [teardown_if_connected, hc, Bool.false_eq_true, if_false]
    rw [set_getElem?_same a i s hs]
  | true =>
    obtain ⟨dw1, h⟩ := (pad_deinit_at_connected a i s dw hs hc).2 (hr hc)
    refine ⟨dw1, ?_⟩
    rw [h]
    simp only [teardown_if_connected, hc, if_true]

/-- One iteration of the loop of `pad_connection_destroy` on a non-`NULL` array. -/
theorem destroy_loop_step (n i : Nat) (a : List (joypad_connection_t W))
    (dw : driver_world W) :
    pad_connection_destroy_loop (n + 1) i (some a) dw =
      match pad_deinit_at a i dw with
      | Except.error f => Except.error f
      | Except.ok (a1, dw1) => pad_connection_destroy_loop n (i + 1) (some a1) dw1 := by
  simp only [pad_connection_destroy_loop]

/-- The loop of `pad_connection_destroy` over slots that do not meet a missing
`set_rumble` entry returns; the visited slots end torn down (not connected) and the
other slots are unchanged. -/
theorem destroy_loop_run :
    ∀ (n i : Nat) (a : List (joypad_connection_t W)) (dw : driver_world W),
      i + n ≤ a.length →
      (∀ j s, i ≤ j → j < i + n → a[j]? = some s → rumble_provided s) →
      ∃ (b : List (joypad_connection_t W)) (dw1 : driver_world W),
        pad_connection_destroy_loop n i (some a) dw = Except.ok (some b, dw1) ∧
        b.length = a.length ∧
        (∀ j, i ≤ j → j < i + n →
          ∃ s, a[j]? = some s ∧ b[j]? = some (teardown_if_connected s)) ∧
        (∀ j, (j < i ∨ i + n ≤ j) → b[j]? = a[j]?) := by
  intro n
  induction n with
  | zero =>
    intro i a dw _ _
    exact ⟨a, dw, rfl, rfl, fun j h1 h2 => absurd h2 (by omega), fun _ _ => rfl⟩
  | succ n ih =>
    intro i a dw hlen hrum
    have hia : i < a.length := by omega
    have hs : a[i]? = some a[i] := List.getElem?_eq_getElem hia
    obtain ⟨dw1, hd⟩ := pad_deinit_at_run a i a[i] dw hs
      (hrum i a[i] (le_refl i) (by omega) hs)
    obtain ⟨b, dw2, hrun, hblen, hin, hout⟩ :=
      ih (i + 1) (a.set i (teardown_if_connected a[i])) dw1
        (by simp only [List.length_set]; omega)
        (by
          intro j s hj1 hj2 hjs
          rw [List.getElem?_set_ne (by omega)] at hjs
          exact hrum j s (by omega) (by omega) hjs)
    refine ⟨b, dw2, ?_, ?_, ?_, ?_⟩
    · rw [destroy_loop_step, hd]
      exact hrun
    · rw [hblen]
      simp
    · intro j hj1 hj2
      by_cases hji : j = i
      · subst hji
        refine ⟨a[j], hs, ?_⟩
        rw [hout j (Or.inl (by omega))]
        exact List.getElem?_set_self hia
      · obtain ⟨s, hs1, hs2⟩ := hin j (by omega) (by omega)
        rw [List.getElem?_set_ne (fun h => hji h.symm)] at hs1
        exact ⟨s, hs1, hs2⟩
    · intro j hj
      rw [hout j (by omega)]
      exact List.getElem?_set_ne (by omega)

/-- The loop of `pad_connection_destroy` over vacant slots changes nothing and calls no
driver. -/
theorem destroy_loop_noop :
    ∀ (n i : Nat) (a : List (joypad_connection_t W)) (dw : driver_world W),
      (∀ j, i ≤ j → j < i + n → slot_vacant a j = true) →
      pad_connection_destroy_loop n i (some a) dw = Except.ok (some a, dw) := by
  intro n
  induction n with
  | zero => intro i a dw _; rfl
  | succ n ih =>
    intro i a dw hv
    rw [destroy_loop_step, pad_deinit_at_vacant a i dw (hv i (le_refl i) (by omega))]
    exact ih (i + 1) a dw (fun j h1 h2 => hv j (by omega) (by omega))

/-! ## Lemmas on the slot invariant -/

theorem slot_invariant_bound (iface : pad_connection_interface_t W) (data : ptr_t) :
    slot_invariant (bound_slot iface data) := rfl

theorem slot_invariant_torn_down (s : joypad_connection_t W) :
    slot_invariant (torn_down_slot s) := rfl

/-- Storing a slot that satisfies the invariant keeps the invariant of the array. -/
theorem registry_invariant_set (a : List (joypad_connection_t W)) (p : Nat)
    (x : joypad_connection_t W) (ha : registry_invariant a) (hx : slot_invariant x) :
    registry_invariant (a.set p x) := by
  intro i s hs
  rw [List.getElem?_set] at hs
  by_cases hpi : p = i
  · rw [if_pos hpi] at hs
    by_cases hlt : p < a.length
    · rw [if_pos hlt] at hs
      injection hs with hs
      rw [← hs]
      exact hx
    · rw [if_neg hlt] at hs
      cases hs
  · rw [if_neg hpi] at hs
    exact ha i s hs

/-- The array built by a successful `pad_connection_init` satisfies the invariant. -/
theorem registry_invariant_init (pads : Nat) (a0 : List (joypad_connection_t W))
    (h : pad_connection_init true pads = some a0) : registry_invariant a0 := by
  rw [pad_connection_init_eq] at h
  injection h with h
  subst h
  intro i s hs
  have hmem : s ∈ List.replicate pads (zeroed_slot : joypad_connection_t W) :=
    List.getElem?_mem hs
  rw [List.eq_of_mem_replicate hmem]
  rfl

/-- The loop of `pad_connection_destroy` keeps the invariant of the array. -/
theorem destroy_loop_invariant :
    ∀ (n i : Nat) (a : List (joypad_connection_t W)) (dw : driver_world W)
      (jc : registry W) (dw1 : driver_world W),
      pad_connection_destroy_loop n i (some a) dw = Except.ok (jc, dw1) →
      registry_invariant a → ∃ b, jc = some b ∧ registry_invariant b := by
  intro n
  induction n with
  | zero =>
    intro i a dw jc dw1 h ha
    simp only [pad_connection_destroy_loop, Except.ok.injEq, Prod.mk.injEq] at h
    exact ⟨a, h.1.symm, ha⟩
  | succ n ih =>
    intro i a dw jc dw1 h ha
    rw [destroy_loop_step] at h
    cases hd : pad_deinit_at a i dw with
    | error f => rw [hd] at h; cases h
    | ok r =>
      obtain ⟨a1, dw2⟩ := r
      rw [hd] at h
      dsimp only at h
      obtain ⟨s, _, hcase⟩ := pad_deinit_at_cases a i dw a1 dw2 hd
      have ha1 : registry_invariant a1 := by
        rcases hcase with ⟨_, hb, _⟩ | ⟨_, hb⟩
        · rw [hb]; exact ha
        · rw [hb]; exact registry_invariant_set a i _ ha (slot_invariant_torn_down s)
      exact ih (i + 1) a1 dw2 jc dw1 h ha1

/-- Every operation of the registry keeps the invariant of the array. -/
theorem apply_op_invariant (E : joypad_env W) (op : registry_op)
    (a : List (joypad_connection_t W)) (dw : driver_world W)
    (st : List (joypad_connection_t W) × driver_world W)
    (h : apply_op E op (a, dw) = Except.ok st) (ha : registry_invariant a) :
    registry_invariant st.1 := by
  cases op with
  | connect d =>
    simp only [apply_op] at h
    cases hres : pad_connection_pad_init E (some a) d.name d.vid d.pid d.data d.ptr dw with
    | error f => rw [hres] at h; cases h
    | ok res =>
      obtain ⟨r, jc, dw1⟩ := res
      rw [hres] at h
      rcases pad_init_result E (some a) d.name d.vid d.pid d.data d.ptr dw r jc dw1 hres with
        ⟨_, hjc, _⟩ | ⟨a1, p, nm, e, ha1, _, _, _, _, _, hjc, _⟩
      · subst hjc
        simp only [Except.ok.injEq] at h
        rw [← h]
        exact ha
      · subst hjc
        injection ha1 with ha1
        subst ha1
        simp only [Except.ok.injEq] at h
        rw [← h]
        exact registry_invariant_set a p _ ha (slot_invariant_bound _ _)
  | disconnect i =>
    simp only [apply_op] at h
    obtain ⟨b, dw1⟩ := st
    obtain ⟨s, _, hcase⟩ := pad_deinit_at_cases a i dw b dw1 h
    rcases hcase with ⟨_, hb, _⟩ | ⟨_, hb⟩
    · rw [hb]; exact ha
    · rw [hb]; exact registry_invariant_set a i _ ha (slot_invariant_torn_down s)
  | dispatch_packet i bytes length =>
    simp only [apply_op] at h
    cases hs : a[i]? with
    | none => rw [hs] at h; cases h
    | some s =>
      rw [hs] at h
      simp only [Except.ok.injEq] at h
      rw [← h]
      exact ha
  | read_buttons i =>
    simp only [apply_op] at h
    cases hs : a[i]? with
    | none => rw [hs] at h; cases h
    | some s =>
      rw [hs] at h
      dsimp only at h
      cases hr : pad_connection_get_buttons (some s) i dw with
      | error f => rw [hr] at h; cases h
      | ok r =>
        rw [hr] at h
        simp only [Except.ok.injEq] at h
        rw [← h]
        exact ha
  | read_axis i axis =>
    simp only [apply_op] at h
    cases hs : a[i]? with
    | none => rw [hs] at h; cases h
    | some s =>
      rw [hs] at h
      dsimp only at h
      cases hr : pad_connection_get_axis (some s) i axis dw with
      | error f => rw [hr] at h; cases h
      | ok r =>
        rw [hr] at h
        simp only [Except.ok.injEq] at h
        rw [← h]
        exact ha
  | set_rumble i effect strength =>
    simp only [apply_op] at h
    cases hs : a[i]? with
    | none => rw [hs] at h; cases h
    | some s =>
      rw [hs] at h
      dsimp only at h
      cases hr : pad_connection_rumble (some s) i effect strength dw with
      | error f => rw [hr] at h; cases h
      | ok r =>
        rw [hr] at h
        simp only [Except.ok.injEq] at h
        rw [← h]
        exact ha
  | destroy_all =>
    simp only [apply_op] at h
    cases hres : pad_connection_destroy E (some a) dw with
    | error f => rw [hres] at h; cases h
    | ok res =>
      obtain ⟨jc, dw1⟩ := res
      rw [hres] at h
      obtain ⟨b, hjc, hb⟩ :=
        destroy_loop_invariant E.MAX_USERS 0 a dw jc dw1 hres ha
      subst hjc
      simp only [Except.ok.injEq] at h
      rw [← h]
      exact hb

/-- Every sequence of operations keeps the invariant of the array. -/
theorem run_ops_invariant (E : joypad_env W) :
    ∀ (ops : List registry_op) (st st1 : List (joypad_connection_t W) × driver_world W),
      run_ops E ops st = Except.ok st1 → registry_invariant st.1 →
      registry_invariant st1.1 := by
  intro ops
  induction ops with
  | nil =>
    intro st st1 h hst
    simp only [run_ops, Except.ok.injEq] at h
    rw [← h]
    exact hst
  | cons op ops ih =>
    intro st st1 h hst
    simp only [run_ops] at h
    cases hop : apply_op E op st with
    | error f => rw [hop] at h; cases h
    | ok st2 =>
      rw [hop] at h
      dsimp only at h
      obtain ⟨a, dw⟩ := st
      exact ih st2 st1 h (apply_op_invariant E op a dw st2 hop hst)

/-- Every reachable array satisfies the invariant. -/
theorem reachable_invariant (E : joypad_env W)
    (st : List (joypad_connection_t W) × driver_world W) (h : reachable E st) :
    registry_invariant st.1 := by
  obtain ⟨pads, dw0, a0, ops, hinit, hrun⟩ := h
  exact run_ops_invariant E ops (a0, dw0) st hrun (registry_invariant_init pads a0 hinit)

/-! ## Bulk teardown and the slot invariant -/

/-- C15: on a slot array of `MAX_USERS` slots whose connected slots with a driver all
have a driver providing `set_rumble`, `pad_connection_destroy` returns; afterwards each
slot is the former slot torn down if it was connected and untouched otherwise,
`pad_connection_has_interface` is false at every index, and a second
`pad_connection_destroy` right after the first returns the same array and the same
driver world, log of driver calls included. -/
theorem destroy_all_idempotent (E : joypad_env W) (a : List (joypad_connection_t W))
    (dw : driver_world W) (hlen : a.length = E.MAX_USERS)
    (hrum : ∀ (i : Nat) (s : joypad_connection_t W), a[i]? = some s → rumble_provided s) :
    ∃ (b : List (joypad_connection_t W)) (dw1 : driver_world W),
      pad_connection_destroy E (some a) dw = Except.ok (some b, dw1) ∧
      b = a.map teardown_if_connected ∧
      (∀ i, pad_connection_has_interface E (some b) i = Except.ok false) ∧
      pad_connection_destroy E (some b) dw1 = Except.ok (some b, dw1) := by
  obtain ⟨b, dw1, hrun, hblen, hin, _⟩ :=
    destroy_loop_run E.MAX_USERS 0 a dw (by omega) (fun j s _ _ hs => hrum j s hs)
  have hmap : b = a.map teardown_if_connected := by
    apply List.ext_getElem?
    intro j
    rw [List.getElem?_map]
    by_cases hj : j < E.MAX_USERS
    · obtain ⟨s, hs1, hs2⟩ := hin j (by omega) (by omega)
      rw [hs2, hs1]
      rfl
    · rw [List.getElem?_eq_none (by omega), List.getElem?_eq_none (by omega)]
      rfl
  have hvac : ∀ j, j < E.MAX_USERS → slot_vacant b j = true := by
    intro j hj
    obtain ⟨s, _, hs2⟩ := hin j (by omega) (by omega)
    unfold slot_vacant
    rw [hs2]
    unfold teardown_if_connected
    cases hc : s.connected <;> simp [hc, torn_down_slot]
  refine ⟨b, dw1, hrun, hmap, ?_, ?_⟩
  · intro i
    unfold pad_connection_has_interface
    by_cases hi : i < E.MAX_USERS
    · obtain ⟨s, hs, hc⟩ := (slot_vacant_iff b i).mp (hvac i hi)
      simp [hi, hs, hc]
    · simp [hi]
  · exact destroy_loop_noop E.MAX_USERS 0 b dw1 (fun j _ hj => hvac j (by omega))

/-- C15 on the sample array, whose bound slots use the sample driver. -/
theorem destroy_all_idempotent_witness :
    ∃ (b : List (joypad_connection_t Nat)) (dw1 : driver_world Nat),
      pad_connection_destroy sample_env (some sample_slots) sample_world =
        Except.ok (some b, dw1) ∧
      b = sample_slots.map teardown_if_connected ∧
      (∀ i, pad_connection_has_interface sample_env (some b) i = Except.ok false) ∧
      pad_connection_destroy sample_env (some b) dw1 = Except.ok (some b, dw1) :=
  destroy_all_idempotent sample_env sample_slots sample_world (by decide)
    (by
      intro i s hs hc d hd
      have hmem : s ∈ sample_slots := List.getElem?_mem hs
      simp only [sample_slots, List.mem_cons, List.mem_singleton, List.not_mem_nil,
        or_false] at hmem
      rcases hmem with h | h | h | h <;> subst h <;>
        first
          | (injection hd with hd; subst hd; rfl)
          | cases hd)

/-- C16: in every state reached from a freshly constructed registry by any sequence of
`connect`, `disconnect`, `dispatch_packet`, `read_buttons`, `read_axis`, `set_rumble`
and `destroy_all` calls, every slot has a driver interface exactly when it is connected:
no slot is connected without a driver interface and no slot that is not connected holds
one. -/
theorem reachable_slot_invariant (E : joypad_env W)
    (st : List (joypad_connection_t W) × driver_world W) (h : reachable E st) :
    ∀ (i : Nat) (s : joypad_connection_t W), st.1[i]? = some s →
      (s.iface.isSome = true ↔ s.connected = true) ∧
      ¬ (s.connected = true ∧ s.iface = none) ∧
      ¬ (s.connected = false ∧ s.iface.isSome = true) := by
  intro i s hs
  have hinv : s.iface.isSome = s.connected := reachable_invariant E st h i s hs
  refine ⟨by rw [hinv], ?_, ?_⟩
  · rintro ⟨hc, hn⟩
    rw [hn, hc] at hinv
    simp at hinv
  · rintro ⟨hc, hn⟩
    rw [hn, hc] at hinv
    simp at hinv

/-- C16 on the state reached by the sample sequence of operations from a fresh
four-slot registry. -/
theorem reachable_slot_invariant_witness :
    ∃ st : List (joypad_connection_t Nat) × driver_world Nat,
      run_ops sample_env sample_ops (List.replicate 4 zeroed_slot, sample_world) =
        Except.ok st ∧
      ∀ (i : Nat) (s : joypad_connection_t Nat), st.1[i]? = some s →
        (s.iface.isSome = true ↔ s.connected = true) ∧
        ¬ (s.connected = true ∧ s.iface = none) ∧
        ¬ (s.connected = false ∧ s.iface.isSome = true) :=
  match hrun : run_ops sample_env sample_ops (List.replicate 4 zeroed_slot, sample_world) with
  | Except.ok st =>
    ⟨st, rfl, reachable_slot_invariant sample_env st
      ⟨4, sample_world, List.replicate 4 zeroed_slot, sample_ops, rfl, hrun⟩⟩
  | Except.error f => by
    have hok : (run_ops sample_env sample_ops
        (List.replicate 4 zeroed_slot, sample_world)).toBool = true := rfl
    rw [hrun] at hok
    simp [Except.toBool] at hok

/-- C20: in every state reached from a freshly constructed registry by `connect`,
`disconnect` and `destroy_all` calls (and by the other operations), for every index `i`
below `MAX_USERS` at which `pad_connection_has_interface` is false, slot `i` exists,
`pad_connection_get_buttons` on it returns 0 and `pad_connection_get_axis` on it returns
0 for every axis index, both without a driver call.  The same holds at slot `i` right
after a teardown of slot `i` that returned. -/
theorem reachable_unbound_reads_zero (E : joypad_env W)
    (st : List (joypad_connection_t W) × driver_world W) (h : reachable E st) :
    (∀ i, i < E.MAX_USERS →
      pad_connection_has_interface E (some st.1) i = Except.ok false →
      ∃ s, st.1[i]? = some s ∧
        pad_connection_get_buttons (some s) i st.2 = Except.ok (0, st.2) ∧
        ∀ axis, pad_connection_get_axis (some s) i axis st.2 = Except.ok (0, st.2)) ∧
    (∀ (i : Nat) (b : List (joypad_connection_t W)) (dw1 : driver_world W),
      pad_deinit_at st.1 i st.2 = Except.ok (b, dw1) →
      ∃ s, b[i]? = some s ∧
        pad_connection_get_buttons (some s) i dw1 = Except.ok (0, dw1) ∧
        ∀ axis, pad_connection_get_axis (some s) i axis dw1 = Except.ok (0, dw1)) := by
  have hinv := reachable_invariant E st h
  have hzero : ∀ (s : joypad_connection_t W) (i : Nat) (dw : driver_world W),
      s.iface = none →
      pad_connection_get_buttons (some s) i dw = Except.ok (0, dw) ∧
      ∀ axis, pad_connection_get_axis (some s) i axis dw = Except.ok (0, dw) := by
    intro s i dw hn
    simp [pad_connection_get_buttons, pad_connection_get_axis, hn]
  refine ⟨?_, ?_⟩
  · intro i hi hfalse
    unfold pad_connection_has_interface at hfalse
    simp only [hi, if_true] at hfalse
    cases hs : st.1[i]? with
    | none => rw [hs] at hfalse; cases hfalse
    | some s =>
      rw [hs] at hfalse
      simp only [Except.ok.injEq] at hfalse
      have hsi : s.iface.isSome = s.connected := hinv i s hs
      have hn : s.iface = none := by
        rw [← hsi] at hfalse
        cases hi2 : s.iface with
        | none => rfl
        | some d => rw [hi2] at hfalse; simp at hfalse
      obtain ⟨h1, h2⟩ := hzero s i st.2 hn
      exact ⟨s, rfl, h1, h2⟩
  · intro i b dw1 hd
    obtain ⟨s, hs, hcase⟩ := pad_deinit_at_cases st.1 i st.2 b dw1 hd
    rcases hcase with ⟨hc, hb, _⟩ | ⟨_, hb⟩
    · have hsi : s.iface.isSome = s.connected := hinv i s hs
      have hn : s.iface = none := by
        rw [hc] at hsi
        cases hi2 : s.iface with
        | none => rfl
        | some d => rw [hi2] at hsi; simp at hsi
      obtain ⟨h1, h2⟩ := hzero s i dw1 hn
      exact ⟨s, by rw [hb]; exact hs, h1, h2⟩
    · have hlt : i < st.1.length := by
        obtain ⟨hlt, _⟩ := List.getElem?_eq_some.mp hs
        exact hlt
      obtain ⟨h1, h2⟩ := hzero (torn_down_slot s) i dw1 rfl
      exact ⟨torn_down_slot s, by rw [hb]; exact List.getElem?_set_self hlt, h1, h2⟩

/-- C20 on the state reached by the sample sequence of operations, which ends with a
teardown of slot 0. -/
theorem reachable_unbound_reads_zero_witness :
    ∃ st : List (joypad_connection_t Nat) × driver_world Nat,
      run_ops sample_env sample_ops (List.replicate 4 zeroed_slot, sample_world) =
        Except.ok st ∧
      ∀ i, i < sample_env.MAX_USERS →
        pad_connection_has_interface sample_env (some st.1) i = Except.ok false →
        ∃ s, st.1[i]? = some s ∧
          pad_connection_get_buttons (some s) i st.2 = Except.ok (0, st.2) ∧
          ∀ axis, pad_connection_get_axis (some s) i axis st.2 = Except.ok (0, st.2) :=
  match hrun : run_ops sample_env sample_ops (List.replicate 4 zeroed_slot, sample_world) with
  | Except.ok st =>
    ⟨st, rfl, (reachable_unbound_reads_zero sample_env st
      ⟨4, sample_world, List.replicate 4 zeroed_slot, sample_ops, rfl, hrun⟩).1⟩
  | Except.error f => by
    have hok : (run_ops sample_env sample_ops
        (List.replicate 4 zeroed_slot, sample_world)).toBool = true := rfl
    rw [hrun] at hok
    simp [Except.toBool] at hok

end JoypadConnection
